import Mathlib

/-!
# BMG160 gyro driver, trigger implementation

Shallow embedding of `drivers/sensor/sensor_bmg160_trigger.c`.

* The driver data (`struct bmg160_device_data`) and the chip register file are
  an explicit state that every entry point receives and returns.
* Every bus transaction is appended to a trace, every handler invocation to
  another one, so that "writes no register" and "invokes exactly once" are
  statements about these traces.
* The outcome of a bus transaction (success or failure, and the bytes a read
  delivers) is an argument of the entry point that issues it.
* The register map, the bit masks and the two conversion helpers live in
  `sensor_bmg160.h` and `sensor.h`; they are the fields of `bmg160_hdr`, a
  parameter of every function. `bmg160_datasheet` is the register layout of
  the datasheet the source file cites (BST-BMG160-DS000-09).
-/

namespace Bmg160

/-- Error numbers the driver returns negated. -/
inductive Errno where
  | eio
  | einval
  | enotsup
  deriving DecidableEq, Repr

/-- C `int` status of an entry point: `ok` is `0`, `err e` is `-e`. -/
inductive Status where
  | ok
  | err (e : Errno)
  deriving DecidableEq, Repr

/-- Tags of `enum sensor_value_type`; `other` stands for every further tag. -/
inductive sensor_value_type where
  | SENSOR_VALUE_TYPE_INT
  | SENSOR_VALUE_TYPE_INT_PLUS_MICRO
  | other (tag : Nat)
  deriving DecidableEq, Repr

/-- Members of `enum sensor_attribute`; `other` stands for every further one. -/
inductive sensor_attribute where
  | SENSOR_ATTR_SLOPE_TH
  | SENSOR_ATTR_SLOPE_DUR
  | other (tag : Nat)
  deriving DecidableEq, Repr

/-- Members of `enum sensor_trigger_type`; `other` stands for every further one. -/
inductive sensor_trigger_type where
  | SENSOR_TRIG_DELTA
  | SENSOR_TRIG_DATA_READY
  | other (tag : Nat)
  deriving DecidableEq, Repr

/-- Members of `enum sensor_channel`; `other` stands for every further one. -/
inductive sensor_channel where
  | SENSOR_CHAN_GYRO_ANY
  | other (tag : Nat)
  deriving DecidableEq, Repr

open sensor_value_type sensor_attribute sensor_trigger_type sensor_channel

/-- The `struct sensor_value` of `sensor.h`: a type tag and two `int32_t`. -/
structure sensor_value where
  type : sensor_value_type
  val1 : Int
  val2 : Int
  deriving DecidableEq, Repr

/-- The `struct sensor_trigger` of `sensor.h`. -/
structure sensor_trigger where
  type : sensor_trigger_type
  chan : sensor_channel
  deriving DecidableEq, Repr

/-- A `sensor_trigger_handler_t`: `none` is the null pointer, `some a` the
function at address `a`. -/
abbrev sensor_trigger_handler_t := Option Nat

/-- What `sensor_bmg160_trigger.c` takes from `sensor_bmg160.h` and `sensor.h`:
register addresses, bit masks, the scale-to-range macro and the
radians-to-degrees helper (an `int32_t` result). -/
structure bmg160_hdr where
  BMG160_REG_INT_STATUS0 : Nat
  BMG160_REG_INT_EN0 : Nat
  BMG160_REG_THRES : Nat
  BMG160_REG_ANY_EN : Nat
  BMG160_DATA_EN : Nat
  BMG160_THRES_MASK : Nat
  BMG160_ANY_EN_X : Nat
  BMG160_ANY_EN_Y : Nat
  BMG160_ANY_EN_Z : Nat
  BMG160_ANY_EN_MASK : Nat
  BMG160_ANY_DURSAMPLE_POS : Nat
  BMG160_ANY_DURSAMPLE_MASK : Nat
  BMG160_ANY_INT : Nat
  BMG160_REG_INT_EN1 : Nat
  BMG160_REG_INT_RST_LATCH : Nat
  BMG160_REG_INT_MAP0 : Nat
  BMG160_REG_INT_MAP1 : Nat
  BMG160_INT1_ANY : Nat
  BMG160_INT1_HIGH : Nat
  BMG160_INT1_DATA : Nat
  BMG160_INT1_FIFO : Nat
  BMG160_INT1_FAST_OFFSET : Nat
  BMG160_SCALE_TO_RANGE : Nat → Int
  sensor_rad_to_degrees : sensor_value → Int

/-- The fields of `struct bmg160_device_data` the trigger code touches. -/
structure bmg160_device_data where
  scale : Nat
  anymotion_handler : sensor_trigger_handler_t
  drdy_handler : sensor_trigger_handler_t
  deriving DecidableEq, Repr

/-- One transaction on the sensor bus. -/
inductive BusOp where
  | write (reg val : Nat)
  | update (reg mask val : Nat)
  | read (reg len : Nat)
  deriving DecidableEq, Repr

/-- The device: driver data, chip register file, trace of bus transactions
issued so far and trace of handler invocations made so far. -/
structure Device where
  data : bmg160_device_data
  regs : Nat → Nat
  bus : List BusOp
  calls : List (Nat × sensor_trigger)

/-- Conversion of a C integer to `uint16_t`. -/
def to_u16 (x : Int) : Nat := (x % 65536).toNat

/-- Modelled from the spec: the bus transport's
`write_byte(register, value) -> Result<(), IoError>` (`bmg160_write_byte` of
`sensor_bmg160.c`). The transaction is issued; when the bus works the
register holds the byte afterwards, otherwise nothing changes and the
result is `IoError`. -/
def bmg160_write_byte (busOk : Bool) (d : Device) (reg val : Nat) : Status × Device :=
  let d1 := { d with bus := d.bus ++ [BusOp.write reg val] }
  if busOk then
    (Status.ok, { d1 with regs := fun r => if r = reg then val % 256 else d.regs r })
  else
    (Status.err Errno.eio, d1)

/-- Modelled from the spec: the bus transport's
`update_bits(register, mask, value) -> Result<(), IoError>` (read-modify-write,
`bmg160_update_byte` of `sensor_bmg160.c`). When the bus works the bits of
the register selected by `mask` take the bits of `value`, the others keep
theirs; otherwise nothing changes and the result is `IoError`. -/
def bmg160_update_byte (busOk : Bool) (d : Device) (reg mask val : Nat) : Status × Device :=
  let d1 := { d with bus := d.bus ++ [BusOp.update reg mask val] }
  if busOk then
    (Status.ok,
     { d1 with regs := fun r =>
        if r = reg then ((d.regs reg &&& (mask ^^^ 255)) ||| (val &&& mask)) % 256
        else d.regs r })
  else
    (Status.err Errno.eio, d1)

/-- Modelled from the spec: the bus transport's
`read_bytes(register, count) -> Result<Bytes, IoError>` (`bmg160_read` of
`sensor_bmg160.c`). `rd` is what the bus delivers: `none` when the
transaction fails, the `len` bytes read otherwise. -/
def bmg160_read {len : Nat} (rd : Option (Fin len → Nat)) (d : Device) (reg : Nat) :
    Option (Fin len → Nat) × Device :=
  let d1 := { d with bus := d.bus ++ [BusOp.read reg len] }
  match rd with
  | none => (none, d1)
  | some bytes => (some (fun i => bytes i % 256), d1)

/-- The function `bmg160_anymotion_set`: the masked update of the axis enable
bits, then, only if it succeeded, the assignment of the handler slot. -/
def bmg160_anymotion_set (K : bmg160_hdr) (busOk : Bool) (d : Device)
    (handler : sensor_trigger_handler_t) : Status × Device :=
  let anymotion_en : Nat :=
    if handler.isSome then
      K.BMG160_ANY_EN_X ||| K.BMG160_ANY_EN_Y ||| K.BMG160_ANY_EN_Z
    else 0
  match bmg160_update_byte busOk d K.BMG160_REG_ANY_EN K.BMG160_ANY_EN_MASK anymotion_en with
  | (Status.err _, d1) => (Status.err Errno.eio, d1)
  | (Status.ok, d1) =>
    (Status.ok, { d1 with data := { d1.data with anymotion_handler := handler } })

/-- The function `bmg160_drdy_set`: the masked update of the data-ready enable
bit, then, only if it succeeded, the assignment of the handler slot. -/
def bmg160_drdy_set (K : bmg160_hdr) (busOk : Bool) (d : Device)
    (handler : sensor_trigger_handler_t) : Status × Device :=
  match bmg160_update_byte busOk d K.BMG160_REG_INT_EN0 K.BMG160_DATA_EN
      (if handler.isSome then K.BMG160_DATA_EN else 0) with
  | (Status.err _, d1) => (Status.err Errno.eio, d1)
  | (Status.ok, d1) =>
    (Status.ok, { d1 with data := { d1.data with drdy_handler := handler } })

/-- The function `bmg160_slope_config`. The result is `none` where the C code
has no defined behaviour: the division by `range_dps` when that is zero.
`val1 << BMG160_ANY_DURSAMPLE_POS` is taken on the integers, which is what C
computes for the four legal durations and a bit position of a byte. -/
def bmg160_slope_config (K : bmg160_hdr) (busOk : Bool) (d : Device)
    (attr : sensor_attribute) (val : sensor_value) : Option (Status × Device) :=
  if attr = SENSOR_ATTR_SLOPE_TH then
    if val.type ≠ SENSOR_VALUE_TYPE_INT_PLUS_MICRO then
      some (Status.err Errno.einval, d)
    else
      let any_th_dps : Nat := to_u16 (K.sensor_rad_to_degrees val)
      let range_dps : Nat := to_u16 (K.BMG160_SCALE_TO_RANGE d.data.scale)
      if range_dps = 0 then none
      else
        let _any_th_reg_val : Nat := (any_th_dps * 2000 / range_dps) % 256
        if any_th_dps > range_dps / 16 then
          some (Status.err Errno.enotsup, d)
        else
          some (bmg160_write_byte busOk d K.BMG160_REG_THRES
                  (any_th_dps &&& K.BMG160_THRES_MASK))
  else if attr = SENSOR_ATTR_SLOPE_DUR then
    if val.type ≠ SENSOR_VALUE_TYPE_INT then
      some (Status.err Errno.einval, d)
    else if val.val1 ≠ 4 ∧ val.val1 ≠ 8 ∧ val.val1 ≠ 12 ∧ val.val1 ≠ 16 then
      some (Status.err Errno.enotsup, d)
    else
      some (bmg160_write_byte busOk d K.BMG160_REG_ANY_EN
              ((val.val1.toNat <<< K.BMG160_ANY_DURSAMPLE_POS) &&&
                K.BMG160_ANY_DURSAMPLE_MASK))
  else
    some (Status.err Errno.enotsup, d)

/-- The function `bmg160_trigger_set`. -/
def bmg160_trigger_set (K : bmg160_hdr) (busOk : Bool) (d : Device)
    (trig : sensor_trigger) (handler : sensor_trigger_handler_t) : Status × Device :=
  if trig.type = SENSOR_TRIG_DELTA then
    bmg160_anymotion_set K busOk d handler
  else if trig.type = SENSOR_TRIG_DATA_READY then
    bmg160_drdy_set K busOk d handler
  else
    (Status.err Errno.enotsup, d)

/-- The function `bmg160_handle_anymotion_int`: the call of the handler is
recorded in the invocation trace. -/
def bmg160_handle_anymotion_int (d : Device) : Status × Device :=
  let any_trig : sensor_trigger := ⟨SENSOR_TRIG_DELTA, SENSOR_CHAN_GYRO_ANY⟩
  match d.data.anymotion_handler with
  | some h => (Status.ok, { d with calls := d.calls ++ [(h, any_trig)] })
  | none => (Status.ok, d)

/-- The function `bmg160_handle_dataready_int`: the call of the handler is
recorded in the invocation trace. -/
def bmg160_handle_dataready_int (d : Device) : Status × Device :=
  let drdy_trig : sensor_trigger := ⟨SENSOR_TRIG_DATA_READY, SENSOR_CHAN_GYRO_ANY⟩
  match d.data.drdy_handler with
  | some h => (Status.ok, { d with calls := d.calls ++ [(h, drdy_trig)] })
  | none => (Status.ok, d)

/-- The function `bmg160_handle_int`: it is `void`, so the device is all it
yields. -/
def bmg160_handle_int (K : bmg160_hdr) (rd : Option (Fin 4 → Nat)) (d : Device) : Device :=
  match bmg160_read rd d K.BMG160_REG_INT_STATUS0 with
  | (none, d1) => d1
  | (some status_int, d1) =>
    if status_int 0 &&& K.BMG160_ANY_INT ≠ 0 then
      (bmg160_handle_anymotion_int d1).2
    else
      (bmg160_handle_dataready_int d1).2

/-- An instance of the header for concrete evaluation: the register layout
of the datasheet the source cites (BST-BMG160-DS000-09: status 0 at 0x09
with `any_int` in bit 2, `INT_EN0` at 0x15 with `data_en` in bit 7, the 7-bit
`any_th` at 0x1B, and at 0x1C the axis enables in bits 0..2 and
`any_dursample` in bits 4..5, the pin configuration at 0x16, the latch
register at 0x21 and the two interrupt maps at 0x17 and 0x18), and both
conversions as integer arithmetic
with pi taken as 3141592 / 1000000, under which the scale 1065 is the range
of 2000 degrees per second. -/
def bmg160_datasheet : bmg160_hdr where
  BMG160_REG_INT_STATUS0 := 0x09
  BMG160_REG_INT_EN0 := 0x15
  BMG160_REG_THRES := 0x1B
  BMG160_REG_ANY_EN := 0x1C
  BMG160_DATA_EN := 0x80
  BMG160_THRES_MASK := 0x7F
  BMG160_ANY_EN_X := 0x01
  BMG160_ANY_EN_Y := 0x02
  BMG160_ANY_EN_Z := 0x04
  BMG160_ANY_EN_MASK := 0x07
  BMG160_ANY_DURSAMPLE_POS := 4
  BMG160_ANY_DURSAMPLE_MASK := 0x30
  BMG160_ANY_INT := 0x04
  BMG160_REG_INT_EN1 := 0x16
  BMG160_REG_INT_RST_LATCH := 0x21
  BMG160_REG_INT_MAP0 := 0x17
  BMG160_REG_INT_MAP1 := 0x18
  BMG160_INT1_ANY := 0x02
  BMG160_INT1_HIGH := 0x08
  BMG160_INT1_DATA := 0x01
  BMG160_INT1_FIFO := 0x04
  BMG160_INT1_FAST_OFFSET := 0x02
  BMG160_SCALE_TO_RANGE := fun scale => Int.tdiv (scale * 90 * 65536 + 3141592 / 2) 3141592
  sensor_rad_to_degrees := fun v => Int.tdiv ((v.val1 * 1000000 + v.val2) * 180) 3141592

/-- A device after reset: no handler, every register zero, nothing traced. -/
def reset_device (scale : Nat) : Device :=
  { data := { scale := scale, anymotion_handler := none, drdy_handler := none }
    regs := fun _ => 0
    bus := []
    calls := [] }

/-- One call into the driver, with the outcome of the bus transaction it may
issue. -/
inductive Call where
  | trigger_set (busOk : Bool) (trig : sensor_trigger) (handler : sensor_trigger_handler_t)
  | slope_config (busOk : Bool) (attr : sensor_attribute) (val : sensor_value)
  | handle_int (rd : Option (Fin 4 → Nat))

/-- The device after one call; `none` where the call has no defined behaviour. -/
def step (K : bmg160_hdr) (d : Device) : Call → Option Device
  | Call.trigger_set busOk trig handler => some (bmg160_trigger_set K busOk d trig handler).2
  | Call.slope_config busOk attr val => (bmg160_slope_config K busOk d attr val).map Prod.snd
  | Call.handle_int rd => some (bmg160_handle_int K rd d)

/-- The device after a sequence of calls, the first call first. -/
def run (K : bmg160_hdr) (d : Device) : List Call → Option Device
  | [] => some d
  | c :: cs => (step K d c).bind (fun d1 => run K d1 cs)

/-- The any-motion enable bits (X, Y, Z) of the `ANY_EN` register. -/
def any_en_bits (K : bmg160_hdr) (d : Device) : Nat :=
  d.regs K.BMG160_REG_ANY_EN &&&
    (K.BMG160_ANY_EN_X ||| K.BMG160_ANY_EN_Y ||| K.BMG160_ANY_EN_Z)

/-- The data-ready enable bit of the `INT_EN0` register. -/
def data_en_bit (K : bmg160_hdr) (d : Device) : Nat :=
  d.regs K.BMG160_REG_INT_EN0 &&& K.BMG160_DATA_EN

/-- An interrupt source is enabled exactly when its handler slot is
populated: the three any-motion enable bits are set iff `anymotion_handler`
is not null, the data-ready enable bit is set iff `drdy_handler` is not
null. -/
def irq_invariant (K : bmg160_hdr) (d : Device) : Prop :=
  (any_en_bits K d = (K.BMG160_ANY_EN_X ||| K.BMG160_ANY_EN_Y ||| K.BMG160_ANY_EN_Z) ↔
      d.data.anymotion_handler.isSome = true) ∧
  (data_en_bit K d = K.BMG160_DATA_EN ↔ d.data.drdy_handler.isSome = true)

instance (K : bmg160_hdr) (d : Device) : Decidable (irq_invariant K d) := by
  unfold irq_invariant
  infer_instance

/-- The build configuration of the dispatch context:
`CONFIG_BMG160_TRIGGER_OWN_FIBER`, `CONFIG_BMG160_TRIGGER_GLOBAL_FIBER`, or
neither of the two. -/
inductive trigger_config where
  | OWN_FIBER
  | GLOBAL_FIBER
  | NEITHER
  deriving DecidableEq, Repr

/-- The fields of `struct bmg160_device_config` the trigger code reads: the
name of the GPIO controller and the interrupt pin. -/
structure bmg160_device_config where
  gpio_port : Nat
  int_pin : Nat
  deriving DecidableEq, Repr

/-- What `bmg160_trigger_init` does outside the sensor bus, in the order it
does it: the device lookup, the start of the dispatch context (semaphore
and fiber, or the binding of the work item) and the four GPIO calls. -/
inductive KernelOp where
  | device_get_binding (name : Nat)
  | nano_sem_init
  | fiber_start
  | work_bind
  | gpio_pin_configure (port pin : Nat)
  | gpio_init_callback (pin : Nat)
  | gpio_add_callback (port : Nat)
  | gpio_pin_enable_callback (port pin : Nat)
  deriving DecidableEq, Repr

/-- The device together with the `gpio` field of the driver data and the
trace of kernel and GPIO calls made so far. -/
structure Driver where
  dev : Device
  gpio : Option Nat
  kernel : List KernelOp

/-- The function `bmg160_trigger_init`. `oks` holds the outcomes of the four
register writes, `binding` what `device_get_binding` finds (`none` is the
null pointer). -/
def bmg160_trigger_init (K : bmg160_hdr) (cfg : bmg160_device_config) (mode : trigger_config)
    (oks : Fin 4 → Bool) (binding : Option Nat) (s : Driver) : Status × Driver :=
  match bmg160_write_byte (oks 0) s.dev K.BMG160_REG_INT_EN1 0 with
  | (Status.err _, d1) => (Status.err Errno.eio, { s with dev := d1 })
  | (Status.ok, d1) =>
  match bmg160_write_byte (oks 1) d1 K.BMG160_REG_INT_RST_LATCH 0 with
  | (Status.err _, d2) => (Status.err Errno.eio, { s with dev := d2 })
  | (Status.ok, d2) =>
  match bmg160_write_byte (oks 2) d2 K.BMG160_REG_INT_MAP0
      (K.BMG160_INT1_ANY ||| K.BMG160_INT1_HIGH) with
  | (Status.err _, d3) => (Status.err Errno.eio, { s with dev := d3 })
  | (Status.ok, d3) =>
  match bmg160_write_byte (oks 3) d3 K.BMG160_REG_INT_MAP1
      (K.BMG160_INT1_DATA ||| K.BMG160_INT1_FIFO ||| K.BMG160_INT1_FAST_OFFSET) with
  | (Status.err _, d4) => (Status.err Errno.eio, { s with dev := d4 })
  | (Status.ok, d4) =>
  let s5 : Driver :=
    { dev := d4, gpio := binding,
      kernel := s.kernel ++ [KernelOp.device_get_binding cfg.gpio_port] }
  match binding with
  | none => (Status.err Errno.einval, s5)
  | some gpio =>
    let context : List KernelOp :=
      match mode with
      | trigger_config.OWN_FIBER => [KernelOp.nano_sem_init, KernelOp.fiber_start]
      | trigger_config.GLOBAL_FIBER => [KernelOp.work_bind]
      | trigger_config.NEITHER => []
    (Status.ok,
     { s5 with
       kernel := s5.kernel ++ context ++
         [KernelOp.gpio_pin_configure gpio cfg.int_pin,
          KernelOp.gpio_init_callback cfg.int_pin,
          KernelOp.gpio_add_callback gpio,
          KernelOp.gpio_pin_enable_callback gpio cfg.int_pin] })

/-- The four register writes of `bmg160_trigger_init` in the order of the
source text. -/
def trigger_init_writes (K : bmg160_hdr) : List BusOp :=
  [BusOp.write K.BMG160_REG_INT_EN1 0,
   BusOp.write K.BMG160_REG_INT_RST_LATCH 0,
   BusOp.write K.BMG160_REG_INT_MAP0 (K.BMG160_INT1_ANY ||| K.BMG160_INT1_HIGH),
   BusOp.write K.BMG160_REG_INT_MAP1
     (K.BMG160_INT1_DATA ||| K.BMG160_INT1_FIFO ||| K.BMG160_INT1_FAST_OFFSET)]

/-- A driver before `bmg160_trigger_init`: the device after reset, no GPIO
controller bound, no kernel call made. -/
def reset_driver (scale : Nat) : Driver :=
  { dev := reset_device scale, gpio := none, kernel := [] }

end Bmg160

/-!
# HTS221 temperature and humidity sensor

Shallow embedding of `hts221_channel_get` and `hts221_read_conversion_data` of
`drivers/sensor/sensor_hts221.c`.

* Arithmetic is that of C on `int`, 32 bits wide: a computation has no result
  (`Fault.undefined`) when it divides by zero or leaves the range of `int`.
* The channel enumerators of `sensor.h` and the byte-order macro of
  `misc/byteorder.h` are the fields of `hts221_hdr`, a parameter.
* The calibration and sample fields of `struct hts221_data` are integers;
  `in_range` states the ranges that `hts221_read_conversion_data` and the
  16-bit sample registers give them.
-/

namespace Hts221

open Bmg160 (Status Errno sensor_value sensor_value_type)

/-- Why a run of the C code yields no result: a failed `__ASSERT_NO_MSG`, or
an operation without defined behaviour. -/
inductive Fault where
  | assertion
  | undefined
  deriving DecidableEq, Repr

/-- What `sensor_hts221.c` takes from `sensor.h` and `misc/byteorder.h`: the
two channel enumerators and the conversion from little-endian 16-bit values
to the byte order of the CPU. -/
structure hts221_hdr where
  SENSOR_CHAN_TEMP : Nat
  SENSOR_CHAN_HUMIDITY : Nat
  sys_le16_to_cpu : Nat → Nat

/-- The sample and calibration fields of `struct hts221_data`; in
`sensor_hts221.h` the samples and the four `_out` values are `int16_t`, the
two `_rh_x2` values `uint8_t` and the two `_degc_x8` values `uint16_t`. -/
structure hts221_data where
  rh_sample : Int
  t_sample : Int
  h0_rh_x2 : Int
  h1_rh_x2 : Int
  t0_degc_x8 : Int
  t1_degc_x8 : Int
  h0_t0_out : Int
  h1_t0_out : Int
  t0_out : Int
  t1_out : Int
  deriving DecidableEq, Repr

/-- The result of an `int` operation: defined only inside the 32-bit range. -/
def int32 (x : Int) : Except Fault Int :=
  if -2147483648 ≤ x ∧ x ≤ 2147483647 then Except.ok x else Except.error Fault.undefined

/-- C division on `int`: truncating, undefined for a zero divisor and when
the quotient leaves the range. -/
def c_div (a b : Int) : Except Fault Int :=
  if b = 0 then Except.error Fault.undefined else int32 (Int.tdiv a b)

/-- Conversion of a C integer to `int16_t`. -/
def to_i16 (x : Int) : Int := (x + 32768) % 65536 - 32768

/-- The condition of the `__ASSERT_NO_MSG` of `hts221_channel_get`, as C
reads it: `(chan == SENSOR_CHAN_TEMP) || SENSOR_CHAN_HUMIDITY`. -/
def channel_assertion (H : hts221_hdr) (chan : Nat) : Bool :=
  decide (chan = H.SENSOR_CHAN_TEMP) || decide (H.SENSOR_CHAN_HUMIDITY ≠ 0)

/-- The temperature `conv_val` of `hts221_channel_get` (source lines 40 to
44), evaluated left to right on `int`. -/
def temp_conv_val (drv_data : hts221_data) : Except Fault Int := do
  let dy ← int32 (drv_data.t1_degc_x8 - drv_data.t0_degc_x8)
  let dx ← int32 (drv_data.t_sample - drv_data.t0_out)
  let prod ← int32 (dy * dx)
  let span ← int32 (drv_data.t1_out - drv_data.t0_out)
  let quot ← c_div prod span
  int32 (quot + drv_data.t0_degc_x8)

/-- The temperature output of `hts221_channel_get` (source lines 47 to 49):
`conv_val / 8` and `(conv_val % 8) * (1000000 / 8)` with the truncating
division and remainder of C; neither can leave the range of `int`. -/
def temp_value (conv_val : Int) : sensor_value :=
  { type := sensor_value_type.SENSOR_VALUE_TYPE_INT_PLUS_MICRO
    val1 := Int.tdiv conv_val 8
    val2 := Int.tmod conv_val 8 * (1000000 / 8) }

/-- The humidity `conv_val` of `hts221_channel_get` (source lines 51 to 54),
evaluated left to right on `int`. -/
def humidity_conv_val (drv_data : hts221_data) : Except Fault Int := do
  let dy ← int32 (drv_data.h1_rh_x2 - drv_data.h0_rh_x2)
  let dx ← int32 (drv_data.rh_sample - drv_data.h0_t0_out)
  let prod ← int32 (dy * dx)
  let span ← int32 (drv_data.h1_t0_out - drv_data.h0_t0_out)
  let quot ← c_div prod span
  int32 (quot + drv_data.h0_rh_x2)

/-- The humidity output of `hts221_channel_get` (source lines 57 to 59):
`conv_val * 500` and 0. -/
def humidity_value (conv_val : Int) : Except Fault sensor_value := do
  let val1 ← int32 (conv_val * 500)
  pure { type := sensor_value_type.SENSOR_VALUE_TYPE_INT_PLUS_MICRO, val1 := val1, val2 := 0 }

/-- The function `hts221_channel_get`: the status returned and the value
stored through `val`. `assertOn` tells whether assertions are compiled in. -/
def hts221_channel_get (H : hts221_hdr) (assertOn : Bool) (drv_data : hts221_data)
    (chan : Nat) : Except Fault (Status × sensor_value) :=
  if assertOn && !channel_assertion H chan then
    Except.error Fault.assertion
  else if chan = H.SENSOR_CHAN_TEMP then do
    let conv_val ← temp_conv_val drv_data
    pure (Status.ok, temp_value conv_val)
  else do
    let conv_val ← humidity_conv_val drv_data
    let val ← humidity_value conv_val
    pure (Status.ok, val)

/-- The function `hts221_read_conversion_data`. `rd` is what the burst read
of the 16 calibration bytes delivers, `none` when it fails. Each value is
converted to the type of the field that receives it. -/
def hts221_read_conversion_data (H : hts221_hdr) (rd : Option (Fin 16 → Nat))
    (drv_data : hts221_data) : Status × hts221_data :=
  match rd with
  | none => (Status.err Errno.eio, drv_data)
  | some bytes =>
    let buf : Fin 16 → Nat := fun i => bytes i % 256
    (Status.ok,
     { drv_data with
       h0_rh_x2 := ((buf 0 : Nat) : Int)
       h1_rh_x2 := ((buf 1 : Nat) : Int)
       t0_degc_x8 :=
         ((H.sys_le16_to_cpu (buf 2 ||| ((buf 5 &&& 0x3) <<< 8)) % 65536 : Nat) : Int)
       t1_degc_x8 :=
         ((H.sys_le16_to_cpu (buf 3 ||| ((buf 5 &&& 0xC) <<< 6)) % 65536 : Nat) : Int)
       h0_t0_out := to_i16 (H.sys_le16_to_cpu (buf 6 ||| (buf 7 <<< 8)))
       h1_t0_out := to_i16 (H.sys_le16_to_cpu (buf 10 ||| (buf 11 <<< 8)))
       t0_out := to_i16 (H.sys_le16_to_cpu (buf 12 ||| (buf 13 <<< 8)))
       t1_out := to_i16 (H.sys_le16_to_cpu (buf 14 ||| (buf 15 <<< 8))) })

/-- The ranges of the fields of `struct hts221_data`: the samples and the
`_out` values are 16-bit signed, the `_rh_x2` values bytes, and the `_degc_x8`
values the 10-bit numbers that `hts221_read_conversion_data` assembles. -/
def in_range (d : hts221_data) : Prop :=
  (-32768 ≤ d.rh_sample ∧ d.rh_sample ≤ 32767) ∧
  (-32768 ≤ d.t_sample ∧ d.t_sample ≤ 32767) ∧
  (0 ≤ d.h0_rh_x2 ∧ d.h0_rh_x2 ≤ 255) ∧
  (0 ≤ d.h1_rh_x2 ∧ d.h1_rh_x2 ≤ 255) ∧
  (0 ≤ d.t0_degc_x8 ∧ d.t0_degc_x8 ≤ 1023) ∧
  (0 ≤ d.t1_degc_x8 ∧ d.t1_degc_x8 ≤ 1023) ∧
  (-32768 ≤ d.h0_t0_out ∧ d.h0_t0_out ≤ 32767) ∧
  (-32768 ≤ d.h1_t0_out ∧ d.h1_t0_out ≤ 32767) ∧
  (-32768 ≤ d.t0_out ∧ d.t0_out ≤ 32767) ∧
  (-32768 ≤ d.t1_out ∧ d.t1_out ≤ 32767)

instance (d : hts221_data) : Decidable (in_range d) := by
  unfold in_range
  infer_instance

/-- An instance of the header for concrete evaluation: two distinct non-zero
channel enumerators and a little-endian CPU. -/
def hts221_little_endian : hts221_hdr where
  SENSOR_CHAN_TEMP := 13
  SENSOR_CHAN_HUMIDITY := 16
  sys_le16_to_cpu := fun x => x

/-- Calibration data for concrete evaluation: 20.0 and 30.0 degrees Celsius
at the raw values -100 and 400, 30 and 70 percent at 2000 and -6000. -/
def sample_data : hts221_data where
  rh_sample := 0
  t_sample := 150
  h0_rh_x2 := 60
  h1_rh_x2 := 140
  t0_degc_x8 := 160
  t1_degc_x8 := 240
  h0_t0_out := 2000
  h1_t0_out := -6000
  t0_out := -100
  t1_out := 400

end Hts221

namespace Bmg160

open sensor_value_type sensor_attribute sensor_trigger_type sensor_channel

/-! ## Bytes and bits -/

theorem testBit_255 (i : Nat) : Nat.testBit 255 i = decide (i < 8) := by
  have h : (255 : Nat) = 2 ^ 8 - 1 := by norm_num
  rw [h, Nat.testBit_two_pow_sub_one]

/-- After a masked update the bits under the mask are those of the value. -/
theorem update_masked_bits (a m v : Nat) :
    ((a &&& (m ^^^ 255)) ||| (v &&& m)) % 256 &&& m = (v &&& m) % 256 := by
  apply Nat.eq_of_testBit_eq
  intro i
  have h256 : (256 : Nat) = 2 ^ 8 := by norm_num
  simp only [h256, Nat.testBit_and, Nat.testBit_or, Nat.testBit_xor, Nat.testBit_mod_two_pow,
    testBit_255]
  by_cases hi : i < 8
  · cases a.testBit i <;> cases m.testBit i <;> cases v.testBit i <;> simp [hi]
  · simp [hi]

/-- A masked update done twice leaves the byte the first one left. -/
theorem update_twice (a m v : Nat) :
    ((((a &&& (m ^^^ 255)) ||| (v &&& m)) % 256 &&& (m ^^^ 255)) ||| (v &&& m)) % 256
      = ((a &&& (m ^^^ 255)) ||| (v &&& m)) % 256 := by
  apply Nat.eq_of_testBit_eq
  intro i
  have h256 : (256 : Nat) = 2 ^ 8 := by norm_num
  simp only [h256, Nat.testBit_and, Nat.testBit_or, Nat.testBit_xor, Nat.testBit_mod_two_pow,
    testBit_255]
  by_cases hi : i < 8
  · cases a.testBit i <;> cases m.testBit i <;> cases v.testBit i <;> simp [hi]
  · simp [hi]

theorem to_u16_wrap (k : Nat) (hk : k < 65536) : to_u16 (65536 + (k : Int)) = k := by
  unfold to_u16
  omega

/-! ## The configurator: `bmg160_slope_config` -/

/-- What the threshold branch does for a value of the right type and a
non-zero range: the comparison is made on the 16-bit `any_th_dps`. -/
theorem slope_config_th (K : bmg160_hdr) (busOk : Bool) (d : Device) (v : sensor_value)
    (htype : v.type = SENSOR_VALUE_TYPE_INT_PLUS_MICRO)
    (hrange : to_u16 (K.BMG160_SCALE_TO_RANGE d.data.scale) ≠ 0) :
    bmg160_slope_config K busOk d SENSOR_ATTR_SLOPE_TH v =
      if to_u16 (K.sensor_rad_to_degrees v) >
          to_u16 (K.BMG160_SCALE_TO_RANGE d.data.scale) / 16 then
        some (Status.err Errno.enotsup, d)
      else
        some (bmg160_write_byte busOk d K.BMG160_REG_THRES
          (to_u16 (K.sensor_rad_to_degrees v) &&& K.BMG160_THRES_MASK)) := by
  simp [bmg160_slope_config, htype, hrange]

/-- What the duration branch does for an integer value. -/
theorem slope_config_dur (K : bmg160_hdr) (busOk : Bool) (d : Device) (v : sensor_value)
    (htype : v.type = SENSOR_VALUE_TYPE_INT) :
    bmg160_slope_config K busOk d SENSOR_ATTR_SLOPE_DUR v =
      if v.val1 = 4 ∨ v.val1 = 8 ∨ v.val1 = 12 ∨ v.val1 = 16 then
        some (bmg160_write_byte busOk d K.BMG160_REG_ANY_EN
          ((v.val1.toNat <<< K.BMG160_ANY_DURSAMPLE_POS) &&& K.BMG160_ANY_DURSAMPLE_MASK))
      else
        some (Status.err Errno.enotsup, d) := by
  by_cases h : v.val1 = 4 ∨ v.val1 = 8 ∨ v.val1 = 12 ∨ v.val1 = 16
  · have h2 : ¬ (v.val1 ≠ 4 ∧ v.val1 ≠ 8 ∧ v.val1 ≠ 12 ∧ v.val1 ≠ 16) := by omega
    simp [bmg160_slope_config, htype, h, h2]
  · have h2 : v.val1 ≠ 4 ∧ v.val1 ≠ 8 ∧ v.val1 ≠ 12 ∧ v.val1 ≠ 16 := by omega
    simp [bmg160_slope_config, htype, h, h2]

/-- C1, where the code departs from the claim: a threshold whose conversion
to degrees is `65536 + k`, with `k` at most a sixteenth of the range, is far
above that maximum, yet `any_th_dps` holds only `k`, so with a working bus
the call succeeds and writes `k` into the threshold register instead of
failing with `-ENOTSUP`. -/
theorem slope_th_accepts_wrapped_threshold (K : bmg160_hdr) (d : Device) (v : sensor_value)
    (k : Nat) (htype : v.type = SENSOR_VALUE_TYPE_INT_PLUS_MICRO)
    (hconv : K.sensor_rad_to_degrees v = 65536 + (k : Int))
    (hrange : to_u16 (K.BMG160_SCALE_TO_RANGE d.data.scale) ≠ 0)
    (hk : k ≤ to_u16 (K.BMG160_SCALE_TO_RANGE d.data.scale) / 16) :
    bmg160_slope_config K true d SENSOR_ATTR_SLOPE_TH v =
        some (bmg160_write_byte true d K.BMG160_REG_THRES (k &&& K.BMG160_THRES_MASK)) ∧
      (bmg160_write_byte true d K.BMG160_REG_THRES (k &&& K.BMG160_THRES_MASK)).1 = Status.ok ∧
      ¬ (K.sensor_rad_to_degrees v ≤
          ((to_u16 (K.BMG160_SCALE_TO_RANGE d.data.scale) / 16 : Nat) : Int)) := by
  have hlt : to_u16 (K.BMG160_SCALE_TO_RANGE d.data.scale) < 65536 := by
    unfold to_u16
    omega
  have hk2 : k < 65536 := by omega
  refine ⟨?_, by simp [bmg160_write_byte], ?_⟩
  · rw [slope_config_th K true d v htype hrange, hconv, to_u16_wrap k hk2]
    simp [hk]
  · rw [hconv]
    omega

/-- The failing input of C1 on the datasheet layout: 1144 rad/s is 65546
degrees/s, the range is 2000 degrees/s with maximum 125, and the call
succeeds, writing 10 to the threshold register 0x1B. -/
theorem slope_th_accepts_wrapped_threshold_witness :
    bmg160_datasheet.sensor_rad_to_degrees ⟨SENSOR_VALUE_TYPE_INT_PLUS_MICRO, 1144, 0⟩ = 65546 ∧
    to_u16 (bmg160_datasheet.BMG160_SCALE_TO_RANGE (reset_device 1065).data.scale) = 2000 ∧
    (bmg160_slope_config bmg160_datasheet true (reset_device 1065) SENSOR_ATTR_SLOPE_TH
        ⟨SENSOR_VALUE_TYPE_INT_PLUS_MICRO, 1144, 0⟩ =
      some (bmg160_write_byte true (reset_device 1065) 0x1B 10) ∧
     (bmg160_write_byte true (reset_device 1065) 0x1B 10).1 = Status.ok ∧
     ¬ ((65546 : Int) ≤ ((125 : Nat) : Int))) :=
  ⟨by decide, by decide,
   slope_th_accepts_wrapped_threshold bmg160_datasheet (reset_device 1065)
     ⟨SENSOR_VALUE_TYPE_INT_PLUS_MICRO, 1144, 0⟩ 10 rfl (by decide) (by decide) (by decide)⟩

/-- C2, where the code departs from the claim: on the datasheet layout
(duration field in bits 4..5 of register 0x1C) each of the four legal
durations is accepted and makes the same write, the byte 0 to `ANY_EN`;
the duration field of the register is then 0, which is not the duration
shifted into its bit position, and it is the same for all four. -/
theorem slope_dur_legal_values_write_zero (busOk : Bool) (d : Device) (v val2 : Int)
    (hv : v = 4 ∨ v = 8 ∨ v = 12 ∨ v = 16) :
    bmg160_slope_config bmg160_datasheet busOk d SENSOR_ATTR_SLOPE_DUR
        ⟨SENSOR_VALUE_TYPE_INT, v, val2⟩ =
      some (bmg160_write_byte busOk d bmg160_datasheet.BMG160_REG_ANY_EN 0) ∧
    (bmg160_write_byte true d bmg160_datasheet.BMG160_REG_ANY_EN 0).1 = Status.ok ∧
    (bmg160_write_byte true d bmg160_datasheet.BMG160_REG_ANY_EN 0).2.bus =
      d.bus ++ [BusOp.write 0x1C 0] ∧
    (bmg160_write_byte true d bmg160_datasheet.BMG160_REG_ANY_EN 0).2.regs
        bmg160_datasheet.BMG160_REG_ANY_EN &&& bmg160_datasheet.BMG160_ANY_DURSAMPLE_MASK = 0 ∧
    v.toNat <<< bmg160_datasheet.BMG160_ANY_DURSAMPLE_POS ≠ 0 := by
  refine ⟨?_, by simp [bmg160_write_byte], by simp [bmg160_write_byte, bmg160_datasheet],
    by simp [bmg160_write_byte], ?_⟩
  · rw [slope_config_dur bmg160_datasheet busOk d _ rfl]
    rcases hv with h | h | h | h <;> subst h <;> simp [bmg160_datasheet] <;> rfl
  · rcases hv with h | h | h | h <;> subst h <;> decide

/-- The failing input of C2: the duration 8 on the datasheet layout. -/
theorem slope_dur_legal_values_write_zero_witness :
    bmg160_slope_config bmg160_datasheet true (reset_device 1065) SENSOR_ATTR_SLOPE_DUR
        ⟨SENSOR_VALUE_TYPE_INT, 8, 0⟩ =
      some (bmg160_write_byte true (reset_device 1065) 0x1C 0) ∧
    (bmg160_write_byte true (reset_device 1065) 0x1C 0).1 = Status.ok ∧
    (bmg160_write_byte true (reset_device 1065) 0x1C 0).2.bus = [BusOp.write 0x1C 0] ∧
    (bmg160_write_byte true (reset_device 1065) 0x1C 0).2.regs 0x1C &&& 0x30 = 0 ∧
    (8 : Int).toNat <<< 4 ≠ 0 :=
  slope_dur_legal_values_write_zero true (reset_device 1065) 8 0 (by decide)

/-! ## The invariant between enable bits and handler slots -/

/-- C3, where the code departs from the claim: registering a motion handler
and then setting a legal slope duration, both with a working bus, leaves the
handler slot populated and the three any-motion enable bits clear, because
the duration is written with a whole-byte write to the register that also
holds those bits. This holds from every state and for every register layout
in which the duration field written does not overlap the enable bits. -/
theorem slope_dur_clears_anymotion_enable (K : bmg160_hdr) (d : Device) (h : Nat)
    (chan : sensor_channel) (v : sensor_value)
    (htype : v.type = SENSOR_VALUE_TYPE_INT)
    (hv : v.val1 = 4 ∨ v.val1 = 8 ∨ v.val1 = 12 ∨ v.val1 = 16)
    (hfield : ((v.val1.toNat <<< K.BMG160_ANY_DURSAMPLE_POS) &&&
        K.BMG160_ANY_DURSAMPLE_MASK) % 256 &&&
        (K.BMG160_ANY_EN_X ||| K.BMG160_ANY_EN_Y ||| K.BMG160_ANY_EN_Z) = 0)
    (hxyz : K.BMG160_ANY_EN_X ||| K.BMG160_ANY_EN_Y ||| K.BMG160_ANY_EN_Z ≠ 0) :
    ∃ d2, run K d [Call.trigger_set true ⟨SENSOR_TRIG_DELTA, chan⟩ (some h),
                   Call.slope_config true SENSOR_ATTR_SLOPE_DUR v] = some d2 ∧
      d2.data.anymotion_handler = some h ∧
      any_en_bits K d2 = 0 ∧
      ¬ irq_invariant K d2 := by
  have hrun : run K d [Call.trigger_set true ⟨SENSOR_TRIG_DELTA, chan⟩ (some h),
        Call.slope_config true SENSOR_ATTR_SLOPE_DUR v] =
      some (bmg160_write_byte true
        (bmg160_trigger_set K true d ⟨SENSOR_TRIG_DELTA, chan⟩ (some h)).2
        K.BMG160_REG_ANY_EN
        ((v.val1.toNat <<< K.BMG160_ANY_DURSAMPLE_POS) &&& K.BMG160_ANY_DURSAMPLE_MASK)).2 := by
    simp [run, step, slope_config_dur K true _ v htype, hv]
  have hslot : (bmg160_write_byte true
        (bmg160_trigger_set K true d ⟨SENSOR_TRIG_DELTA, chan⟩ (some h)).2
        K.BMG160_REG_ANY_EN
        ((v.val1.toNat <<< K.BMG160_ANY_DURSAMPLE_POS) &&&
          K.BMG160_ANY_DURSAMPLE_MASK)).2.data.anymotion_handler = some h := by
    simp [bmg160_write_byte, bmg160_trigger_set, bmg160_anymotion_set, bmg160_update_byte]
  have hbits : any_en_bits K (bmg160_write_byte true
        (bmg160_trigger_set K true d ⟨SENSOR_TRIG_DELTA, chan⟩ (some h)).2
        K.BMG160_REG_ANY_EN
        ((v.val1.toNat <<< K.BMG160_ANY_DURSAMPLE_POS) &&&
          K.BMG160_ANY_DURSAMPLE_MASK)).2 = 0 := by
    simp only [any_en_bits, bmg160_write_byte, if_true]
    simpa using hfield
  refine ⟨_, hrun, hslot, hbits, ?_⟩
  intro hinv
  have h1 := hinv.1.mpr (by rw [hslot]; rfl)
  rw [hbits] at h1
  exact hxyz h1.symm

/-- The failing trace of C3 on the datasheet layout, from the device after
reset, where the invariant holds. -/
theorem slope_dur_clears_anymotion_enable_witness :
    irq_invariant bmg160_datasheet (reset_device 1065) ∧
    ∃ d2, run bmg160_datasheet (reset_device 1065)
        [Call.trigger_set true ⟨SENSOR_TRIG_DELTA, SENSOR_CHAN_GYRO_ANY⟩ (some 1),
         Call.slope_config true SENSOR_ATTR_SLOPE_DUR ⟨SENSOR_VALUE_TYPE_INT, 4, 0⟩] = some d2 ∧
      d2.data.anymotion_handler = some 1 ∧
      any_en_bits bmg160_datasheet d2 = 0 ∧
      ¬ irq_invariant bmg160_datasheet d2 :=
  ⟨by decide,
   slope_dur_clears_anymotion_enable bmg160_datasheet (reset_device 1065) 1
     SENSOR_CHAN_GYRO_ANY ⟨SENSOR_VALUE_TYPE_INT, 4, 0⟩ rfl (by decide) (by decide) (by decide)⟩

/-! ## The registration table: `bmg160_trigger_set` -/

/-- C4: for the kinds DELTA and DATA_READY, whatever the handler argument
and the prior state, when the register update fails on the bus
`bmg160_trigger_set` returns `-EIO` and both handler slots (with the rest of
the driver data and the register file) keep their prior values. -/
theorem trigger_set_bus_failure (K : bmg160_hdr) (d : Device) (trig : sensor_trigger)
    (handler : sensor_trigger_handler_t)
    (hkind : trig.type = SENSOR_TRIG_DELTA ∨ trig.type = SENSOR_TRIG_DATA_READY) :
    (bmg160_trigger_set K false d trig handler).1 = Status.err Errno.eio ∧
    (bmg160_trigger_set K false d trig handler).2.data.anymotion_handler =
      d.data.anymotion_handler ∧
    (bmg160_trigger_set K false d trig handler).2.data.drdy_handler = d.data.drdy_handler ∧
    (bmg160_trigger_set K false d trig handler).2.data = d.data ∧
    (bmg160_trigger_set K false d trig handler).2.regs = d.regs := by
  rcases hkind with hk | hk <;>
    simp [bmg160_trigger_set, bmg160_anymotion_set, bmg160_drdy_set, bmg160_update_byte, hk]

/-- C4 at a concrete input: replacing a registered motion handler fails on
the bus and the old handler stays. -/
theorem trigger_set_bus_failure_witness :
    (bmg160_trigger_set bmg160_datasheet false
        { reset_device 1065 with
          data := { scale := 1065, anymotion_handler := some 7, drdy_handler := some 9 } }
        ⟨SENSOR_TRIG_DELTA, SENSOR_CHAN_GYRO_ANY⟩ (some 3)).1 = Status.err Errno.eio ∧
    (bmg160_trigger_set bmg160_datasheet false
        { reset_device 1065 with
          data := { scale := 1065, anymotion_handler := some 7, drdy_handler := some 9 } }
        ⟨SENSOR_TRIG_DELTA, SENSOR_CHAN_GYRO_ANY⟩ (some 3)).2.data.anymotion_handler = some 7 ∧
    (bmg160_trigger_set bmg160_datasheet false
        { reset_device 1065 with
          data := { scale := 1065, anymotion_handler := some 7, drdy_handler := some 9 } }
        ⟨SENSOR_TRIG_DELTA, SENSOR_CHAN_GYRO_ANY⟩ (some 3)).2.data.drdy_handler = some 9 :=
  have h := trigger_set_bus_failure bmg160_datasheet
    { reset_device 1065 with
      data := { scale := 1065, anymotion_handler := some 7, drdy_handler := some 9 } }
    ⟨SENSOR_TRIG_DELTA, SENSOR_CHAN_GYRO_ANY⟩ (some 3) (Or.inl rfl)
  ⟨h.1, h.2.1, h.2.2.1⟩

/-- C5: when the bus update succeeds `bmg160_trigger_set` returns 0 and
issues exactly one bus transaction, a masked update: for DELTA of register
`ANY_EN` under `ANY_EN_MASK` with value `X | Y | Z` if the handler is present
and 0 if it is absent, for DATA_READY of register `INT_EN0` under `DATA_EN`
with value `DATA_EN` if present and 0 if absent; the slot of that kind
becomes the given handler and the slot of the other kind is unchanged. -/
theorem trigger_set_success (K : bmg160_hdr) (d : Device) (chan : sensor_channel)
    (handler : sensor_trigger_handler_t) :
    ((bmg160_trigger_set K true d ⟨SENSOR_TRIG_DELTA, chan⟩ handler).1 = Status.ok ∧
     (bmg160_trigger_set K true d ⟨SENSOR_TRIG_DELTA, chan⟩ handler).2.bus =
       d.bus ++ [BusOp.update K.BMG160_REG_ANY_EN K.BMG160_ANY_EN_MASK
         (if handler.isSome then
            K.BMG160_ANY_EN_X ||| K.BMG160_ANY_EN_Y ||| K.BMG160_ANY_EN_Z
          else 0)] ∧
     (bmg160_trigger_set K true d ⟨SENSOR_TRIG_DELTA, chan⟩ handler).2.data.anymotion_handler =
       handler ∧
     (bmg160_trigger_set K true d ⟨SENSOR_TRIG_DELTA, chan⟩ handler).2.data.drdy_handler =
       d.data.drdy_handler) ∧
    ((bmg160_trigger_set K true d ⟨SENSOR_TRIG_DATA_READY, chan⟩ handler).1 = Status.ok ∧
     (bmg160_trigger_set K true d ⟨SENSOR_TRIG_DATA_READY, chan⟩ handler).2.bus =
       d.bus ++ [BusOp.update K.BMG160_REG_INT_EN0 K.BMG160_DATA_EN
         (if handler.isSome then K.BMG160_DATA_EN else 0)] ∧
     (bmg160_trigger_set K true d ⟨SENSOR_TRIG_DATA_READY, chan⟩ handler).2.data.drdy_handler =
       handler ∧
     (bmg160_trigger_set K true d
        ⟨SENSOR_TRIG_DATA_READY, chan⟩ handler).2.data.anymotion_handler =
       d.data.anymotion_handler) := by
  simp [bmg160_trigger_set, bmg160_anymotion_set, bmg160_drdy_set, bmg160_update_byte]

/-! ## The dispatch routine: `bmg160_handle_int` -/

/-- C6: with a motion handler and a data-ready handler both registered, a
successful status read whose first byte has the motion bit set, whatever
its other bits and the other three bytes are, makes one dispatch cycle
invoke the motion handler exactly once, with `{DELTA, GYRO_ANY}`, and nothing
else: no invocation carries the data-ready descriptor. The cycle issues the
one status read and changes neither driver data nor registers. -/
theorem handle_int_motion_priority (K : bmg160_hdr) (d : Device) (hm hd : Nat)
    (status : Fin 4 → Nat)
    (hmotion : d.data.anymotion_handler = some hm)
    (hdrdy : d.data.drdy_handler = some hd)
    (hbit : status 0 % 256 &&& K.BMG160_ANY_INT ≠ 0) :
    (bmg160_handle_int K (some status) d).calls =
      d.calls ++ [(hm, ⟨SENSOR_TRIG_DELTA, SENSOR_CHAN_GYRO_ANY⟩)] ∧
    (bmg160_handle_int K (some status) d).data.drdy_handler = some hd ∧
    (bmg160_handle_int K (some status) d).bus =
      d.bus ++ [BusOp.read K.BMG160_REG_INT_STATUS0 4] ∧
    (bmg160_handle_int K (some status) d).data = d.data ∧
    (bmg160_handle_int K (some status) d).regs = d.regs := by
  simp [bmg160_handle_int, bmg160_read, bmg160_handle_anymotion_int, hbit, hmotion, hdrdy]

/-- C6 at a concrete input: status byte 0 is 0x04 (motion) and status byte 1
is 0x80 (data ready); only the motion handler 7 is invoked. -/
theorem handle_int_motion_priority_witness :
    (bmg160_handle_int bmg160_datasheet (some (fun i => if i = 0 then 0x04 else 0x80))
        { reset_device 1065 with
          data := { scale := 1065, anymotion_handler := some 7, drdy_handler := some 9 } }).calls =
      [(7, ⟨SENSOR_TRIG_DELTA, SENSOR_CHAN_GYRO_ANY⟩)] :=
  (handle_int_motion_priority bmg160_datasheet
    { reset_device 1065 with
      data := { scale := 1065, anymotion_handler := some 7, drdy_handler := some 9 } }
    7 9 (fun i => if i = 0 then 0x04 else 0x80) rfl rfl (by decide)).1

/-- C7: whatever handlers are registered, when the status read fails a
dispatch cycle invokes no handler and changes neither the driver data nor
the registers; the routine is `void`, so nothing is reported. The failed
read is the only bus transaction of the cycle. -/
theorem handle_int_read_failure (K : bmg160_hdr) (d : Device) :
    (bmg160_handle_int K none d).calls = d.calls ∧
    (bmg160_handle_int K none d).data = d.data ∧
    (bmg160_handle_int K none d).regs = d.regs ∧
    (bmg160_handle_int K none d).bus = d.bus ++ [BusOp.read K.BMG160_REG_INT_STATUS0 4] := by
  simp [bmg160_handle_int, bmg160_read]

/-- C8: after a successful `bmg160_trigger_set(DATA_READY, h)`, a dispatch
cycle whose status read succeeds with the motion bit clear invokes `h`
exactly once with descriptor type DATA_READY and nothing else; after a
subsequent successful `bmg160_trigger_set(DATA_READY, NULL)`, made right
after the registration or after that cycle, a dispatch cycle with the same
status invokes nothing. -/
theorem register_dispatch_deregister (K : bmg160_hdr) (d : Device) (h : Nat)
    (chan : sensor_channel) (status : Fin 4 → Nat)
    (hbit : status 0 % 256 &&& K.BMG160_ANY_INT = 0) :
    (bmg160_trigger_set K true d ⟨SENSOR_TRIG_DATA_READY, chan⟩ (some h)).1 = Status.ok ∧
    (bmg160_handle_int K (some status)
        (bmg160_trigger_set K true d ⟨SENSOR_TRIG_DATA_READY, chan⟩ (some h)).2).calls =
      d.calls ++ [(h, ⟨SENSOR_TRIG_DATA_READY, SENSOR_CHAN_GYRO_ANY⟩)] ∧
    (bmg160_trigger_set K true
        (bmg160_handle_int K (some status)
          (bmg160_trigger_set K true d ⟨SENSOR_TRIG_DATA_READY, chan⟩ (some h)).2)
        ⟨SENSOR_TRIG_DATA_READY, chan⟩ none).1 = Status.ok ∧
    (bmg160_handle_int K (some status)
        (bmg160_trigger_set K true
          (bmg160_handle_int K (some status)
            (bmg160_trigger_set K true d ⟨SENSOR_TRIG_DATA_READY, chan⟩ (some h)).2)
          ⟨SENSOR_TRIG_DATA_READY, chan⟩ none).2).calls =
      (bmg160_handle_int K (some status)
        (bmg160_trigger_set K true d ⟨SENSOR_TRIG_DATA_READY, chan⟩ (some h)).2).calls ∧
    (bmg160_handle_int K (some status)
        (bmg160_trigger_set K true
          (bmg160_trigger_set K true d ⟨SENSOR_TRIG_DATA_READY, chan⟩ (some h)).2
          ⟨SENSOR_TRIG_DATA_READY, chan⟩ none).2).calls = d.calls := by
  simp [bmg160_trigger_set, bmg160_drdy_set, bmg160_update_byte, bmg160_handle_int,
    bmg160_read, bmg160_handle_dataready_int, hbit]

/-- C8 at a concrete input: handler 9, status byte 0 all zero apart from the
high-rate bit, status byte 1 with the data-ready bit. -/
theorem register_dispatch_deregister_witness :
    (bmg160_handle_int bmg160_datasheet (some (fun i => if i = 0 then 0x02 else 0x80))
        (bmg160_trigger_set bmg160_datasheet true (reset_device 1065)
          ⟨SENSOR_TRIG_DATA_READY, SENSOR_CHAN_GYRO_ANY⟩ (some 9)).2).calls =
      [(9, ⟨SENSOR_TRIG_DATA_READY, SENSOR_CHAN_GYRO_ANY⟩)] :=
  (register_dispatch_deregister bmg160_datasheet (reset_device 1065) 9 SENSOR_CHAN_GYRO_ANY
    (fun i => if i = 0 then 0x02 else 0x80) (by decide)).2.1

/-! ## Idempotence of registration -/

/-- The device after a successful masked update of `reg`. -/
theorem update_byte_ok (d : Device) (reg mask val : Nat) :
    bmg160_update_byte true d reg mask val =
      (Status.ok,
       { d with
         bus := d.bus ++ [BusOp.update reg mask val]
         regs := fun r =>
           if r = reg then ((d.regs reg &&& (mask ^^^ 255)) ||| (val &&& mask)) % 256
           else d.regs r }) := by
  simp [bmg160_update_byte]

/-- C9: with a working bus, `bmg160_trigger_set(kind, NULL)` on a slot that
is already empty returns success, issues the masked update with value 0
again, after which the bits of the register under the enable mask are 0,
and leaves the driver data, hence both handler slots, unchanged (first
conjunct for DELTA, second for DATA_READY); and for every trigger kind and
every handler, `bmg160_trigger_set` applied twice in a row leaves the same
driver data (both handler slots) and the same register file (all enable
bits) as applied once, whether or not the bus works the second time, and
with the same status when it does. -/
theorem trigger_set_idempotent (K : bmg160_hdr) (d : Device) (chan : sensor_channel)
    (trig : sensor_trigger) (handler : sensor_trigger_handler_t) (busOk2 : Bool) :
    (d.data.anymotion_handler = none →
      (bmg160_trigger_set K true d ⟨SENSOR_TRIG_DELTA, chan⟩ none).1 = Status.ok ∧
      (bmg160_trigger_set K true d ⟨SENSOR_TRIG_DELTA, chan⟩ none).2.bus =
        d.bus ++ [BusOp.update K.BMG160_REG_ANY_EN K.BMG160_ANY_EN_MASK 0] ∧
      (bmg160_trigger_set K true d ⟨SENSOR_TRIG_DELTA, chan⟩ none).2.regs
          K.BMG160_REG_ANY_EN &&& K.BMG160_ANY_EN_MASK = 0 ∧
      (bmg160_trigger_set K true d ⟨SENSOR_TRIG_DELTA, chan⟩ none).2.data = d.data) ∧
    (d.data.drdy_handler = none →
      (bmg160_trigger_set K true d ⟨SENSOR_TRIG_DATA_READY, chan⟩ none).1 = Status.ok ∧
      (bmg160_trigger_set K true d ⟨SENSOR_TRIG_DATA_READY, chan⟩ none).2.bus =
        d.bus ++ [BusOp.update K.BMG160_REG_INT_EN0 K.BMG160_DATA_EN 0] ∧
      (bmg160_trigger_set K true d ⟨SENSOR_TRIG_DATA_READY, chan⟩ none).2.regs
          K.BMG160_REG_INT_EN0 &&& K.BMG160_DATA_EN = 0 ∧
      (bmg160_trigger_set K true d ⟨SENSOR_TRIG_DATA_READY, chan⟩ none).2.data = d.data) ∧
    ((bmg160_trigger_set K true (bmg160_trigger_set K true d trig handler).2 trig handler).1 =
        (bmg160_trigger_set K true d trig handler).1 ∧
      (bmg160_trigger_set K busOk2 (bmg160_trigger_set K true d trig handler).2
          trig handler).2.data = (bmg160_trigger_set K true d trig handler).2.data ∧
      (bmg160_trigger_set K busOk2 (bmg160_trigger_set K true d trig handler).2
          trig handler).2.regs = (bmg160_trigger_set K true d trig handler).2.regs) := by
  refine ⟨?_, ?_, ?_⟩
  · intro hnone
    have hz := update_masked_bits (d.regs K.BMG160_REG_ANY_EN) K.BMG160_ANY_EN_MASK 0
    refine ⟨?_, ?_, ?_, ?_⟩
    · simp [bmg160_trigger_set, bmg160_anymotion_set, update_byte_ok]
    · simp [bmg160_trigger_set, bmg160_anymotion_set, update_byte_ok]
    · simpa [bmg160_trigger_set, bmg160_anymotion_set, update_byte_ok] using hz
    · simp [bmg160_trigger_set, bmg160_anymotion_set, update_byte_ok, ← hnone]
  · intro hnone
    have hz := update_masked_bits (d.regs K.BMG160_REG_INT_EN0) K.BMG160_DATA_EN 0
    refine ⟨?_, ?_, ?_, ?_⟩
    · simp [bmg160_trigger_set, bmg160_drdy_set, update_byte_ok]
    · simp [bmg160_trigger_set, bmg160_drdy_set, update_byte_ok]
    · simpa [bmg160_trigger_set, bmg160_drdy_set, update_byte_ok] using hz
    · simp [bmg160_trigger_set, bmg160_drdy_set, update_byte_ok, ← hnone]
  · by_cases h1 : trig.type = SENSOR_TRIG_DELTA
    · refine ⟨?_, ?_, ?_⟩
      · simp [bmg160_trigger_set, bmg160_anymotion_set, update_byte_ok, h1]
      · cases busOk2 <;>
          simp [bmg160_trigger_set, bmg160_anymotion_set, bmg160_update_byte, h1]
      · funext r
        by_cases hr : r = K.BMG160_REG_ANY_EN
        · cases busOk2 <;>
            simp [bmg160_trigger_set, bmg160_anymotion_set, bmg160_update_byte, h1, hr,
              update_twice]
        · cases busOk2 <;>
            simp [bmg160_trigger_set, bmg160_anymotion_set, bmg160_update_byte, h1, hr]
    · by_cases h2 : trig.type = SENSOR_TRIG_DATA_READY
      · refine ⟨?_, ?_, ?_⟩
        · simp [bmg160_trigger_set, bmg160_drdy_set, update_byte_ok, h2]
        · cases busOk2 <;>
            simp [bmg160_trigger_set, bmg160_drdy_set, bmg160_update_byte, h2]
        · funext r
          by_cases hr : r = K.BMG160_REG_INT_EN0
          · cases busOk2 <;>
              simp [bmg160_trigger_set, bmg160_drdy_set, bmg160_update_byte, h2, hr,
                update_twice]
          · cases busOk2 <;>
              simp [bmg160_trigger_set, bmg160_drdy_set, bmg160_update_byte, h2, hr]
      · simp [bmg160_trigger_set, h1, h2]

/-- C9 at a concrete input: no handler registered, every register 0xFF;
deregistering the motion trigger succeeds, clears bits 0..2 of register 0x1C
and keeps the driver data. -/
theorem trigger_set_idempotent_witness :
    (bmg160_trigger_set bmg160_datasheet true { reset_device 1065 with regs := fun _ => 0xFF }
        ⟨SENSOR_TRIG_DELTA, SENSOR_CHAN_GYRO_ANY⟩ none).1 = Status.ok ∧
    (bmg160_trigger_set bmg160_datasheet true { reset_device 1065 with regs := fun _ => 0xFF }
        ⟨SENSOR_TRIG_DELTA, SENSOR_CHAN_GYRO_ANY⟩ none).2.bus = [BusOp.update 0x1C 0x07 0] ∧
    (bmg160_trigger_set bmg160_datasheet true { reset_device 1065 with regs := fun _ => 0xFF }
        ⟨SENSOR_TRIG_DELTA, SENSOR_CHAN_GYRO_ANY⟩ none).2.regs 0x1C &&& 0x07 = 0 ∧
    (bmg160_trigger_set bmg160_datasheet true { reset_device 1065 with regs := fun _ => 0xFF }
        ⟨SENSOR_TRIG_DELTA, SENSOR_CHAN_GYRO_ANY⟩ none).2.data =
      { scale := 1065, anymotion_handler := none, drdy_handler := none } :=
  (trigger_set_idempotent bmg160_datasheet { reset_device 1065 with regs := fun _ => 0xFF }
    SENSOR_CHAN_GYRO_ANY ⟨SENSOR_TRIG_DELTA, SENSOR_CHAN_GYRO_ANY⟩ none true).1 rfl

/-! ## Type check of attribute values -/

/-- C10: a threshold value whose type is not INT_PLUS_MICRO and a duration
value whose type is not INT make `bmg160_slope_config` fail with `-EINVAL`,
whatever `val1` and `val2` hold, whatever the scale is and whether or not
the bus works; the device comes back as it was, so no bus transaction was
issued and no register written. -/
theorem slope_config_wrong_type (K : bmg160_hdr) (busOk : Bool) (d : Device)
    (v : sensor_value) :
    (v.type ≠ SENSOR_VALUE_TYPE_INT_PLUS_MICRO →
      bmg160_slope_config K busOk d SENSOR_ATTR_SLOPE_TH v =
        some (Status.err Errno.einval, d)) ∧
    (v.type ≠ SENSOR_VALUE_TYPE_INT →
      bmg160_slope_config K busOk d SENSOR_ATTR_SLOPE_DUR v =
        some (Status.err Errno.einval, d)) := by
  constructor
  · intro h
    simp [bmg160_slope_config, h]
  · intro h
    simp [bmg160_slope_config, h]

/-- C10 at concrete inputs: the in-range threshold 0 typed INT, and the legal
duration 4 typed INT_PLUS_MICRO, are both refused with `-EINVAL`. -/
theorem slope_config_wrong_type_witness :
    bmg160_slope_config bmg160_datasheet true (reset_device 1065) SENSOR_ATTR_SLOPE_TH
        ⟨SENSOR_VALUE_TYPE_INT, 0, 0⟩ = some (Status.err Errno.einval, reset_device 1065) ∧
    bmg160_slope_config bmg160_datasheet true (reset_device 1065) SENSOR_ATTR_SLOPE_DUR
        ⟨SENSOR_VALUE_TYPE_INT_PLUS_MICRO, 4, 0⟩ =
      some (Status.err Errno.einval, reset_device 1065) :=
  ⟨(slope_config_wrong_type bmg160_datasheet true (reset_device 1065)
      ⟨SENSOR_VALUE_TYPE_INT, 0, 0⟩).1 (by decide),
   (slope_config_wrong_type bmg160_datasheet true (reset_device 1065)
      ⟨SENSOR_VALUE_TYPE_INT_PLUS_MICRO, 4, 0⟩).2 (by decide)⟩

/-! ## Register writes of the configurator -/

/-- The device after a successful write of `reg`. -/
theorem write_byte_ok (d : Device) (reg val : Nat) :
    bmg160_write_byte true d reg val =
      (Status.ok,
       { d with
         bus := d.bus ++ [BusOp.write reg val]
         regs := fun r => if r = reg then val % 256 else d.regs r }) := by
  simp [bmg160_write_byte]

/-- The device after a failed write of `reg`. -/
theorem write_byte_failed (d : Device) (reg val : Nat) :
    bmg160_write_byte false d reg val =
      (Status.err Errno.eio, { d with bus := d.bus ++ [BusOp.write reg val] }) := by
  simp [bmg160_write_byte]

/-- C11: wherever `bmg160_slope_config` is defined (the range of the scale is
not zero when the threshold conversion is reached) it returns, leaves the
driver data (scale and both handler slots) unchanged and issues at most one
register write: when it returns 0 the bus worked and exactly one write was
issued; when it refuses the value (an attribute other than SLOPE_TH and
SLOPE_DUR, which gives `-ENOTSUP`; a wrong value type; a threshold over the
maximum; an illegal duration) the device is exactly as before, so no write
was issued; and when the value passes validation exactly one write is
issued, to the threshold register or to `ANY_EN`, and if that write fails
the result is `-EIO` with the register file unchanged. -/
theorem slope_config_at_most_one_write (K : bmg160_hdr) (busOk : Bool) (d : Device)
    (attr : sensor_attribute) (v : sensor_value)
    (hdef : attr = SENSOR_ATTR_SLOPE_TH → v.type = SENSOR_VALUE_TYPE_INT_PLUS_MICRO →
      to_u16 (K.BMG160_SCALE_TO_RANGE d.data.scale) ≠ 0) :
    ∃ st d1, bmg160_slope_config K busOk d attr v = some (st, d1) ∧
      d1.data = d.data ∧
      (st = Status.ok → busOk = true ∧ ∃ reg val, d1.bus = d.bus ++ [BusOp.write reg val]) ∧
      (st ≠ Status.ok → d1.regs = d.regs ∧
        (d1 = d ∨ (busOk = false ∧ st = Status.err Errno.eio ∧
          ∃ reg val, d1.bus = d.bus ++ [BusOp.write reg val]))) ∧
      (attr ≠ SENSOR_ATTR_SLOPE_TH → attr ≠ SENSOR_ATTR_SLOPE_DUR →
        st = Status.err Errno.enotsup ∧ d1 = d) ∧
      (attr = SENSOR_ATTR_SLOPE_TH → v.type ≠ SENSOR_VALUE_TYPE_INT_PLUS_MICRO →
        st = Status.err Errno.einval ∧ d1 = d) ∧
      (attr = SENSOR_ATTR_SLOPE_TH → v.type = SENSOR_VALUE_TYPE_INT_PLUS_MICRO →
        to_u16 (K.sensor_rad_to_degrees v) >
          to_u16 (K.BMG160_SCALE_TO_RANGE d.data.scale) / 16 →
        st = Status.err Errno.enotsup ∧ d1 = d) ∧
      (attr = SENSOR_ATTR_SLOPE_DUR → v.type ≠ SENSOR_VALUE_TYPE_INT →
        st = Status.err Errno.einval ∧ d1 = d) ∧
      (attr = SENSOR_ATTR_SLOPE_DUR → v.type = SENSOR_VALUE_TYPE_INT →
        ¬ (v.val1 = 4 ∨ v.val1 = 8 ∨ v.val1 = 12 ∨ v.val1 = 16) →
        st = Status.err Errno.enotsup ∧ d1 = d) ∧
      (attr = SENSOR_ATTR_SLOPE_TH → v.type = SENSOR_VALUE_TYPE_INT_PLUS_MICRO →
        to_u16 (K.sensor_rad_to_degrees v) ≤
          to_u16 (K.BMG160_SCALE_TO_RANGE d.data.scale) / 16 →
        st = (if busOk then Status.ok else Status.err Errno.eio) ∧
        d1.bus = d.bus ++ [BusOp.write K.BMG160_REG_THRES
          (to_u16 (K.sensor_rad_to_degrees v) &&& K.BMG160_THRES_MASK)]) ∧
      (attr = SENSOR_ATTR_SLOPE_DUR → v.type = SENSOR_VALUE_TYPE_INT →
        (v.val1 = 4 ∨ v.val1 = 8 ∨ v.val1 = 12 ∨ v.val1 = 16) →
        st = (if busOk then Status.ok else Status.err Errno.eio) ∧
        d1.bus = d.bus ++ [BusOp.write K.BMG160_REG_ANY_EN
          ((v.val1.toNat <<< K.BMG160_ANY_DURSAMPLE_POS) &&&
            K.BMG160_ANY_DURSAMPLE_MASK)]) := by
  by_cases hth : attr = SENSOR_ATTR_SLOPE_TH
  · subst hth
    by_cases hty : v.type = SENSOR_VALUE_TYPE_INT_PLUS_MICRO
    · have hr := hdef rfl hty
      rw [slope_config_th K busOk d v hty hr]
      by_cases hmax : to_u16 (K.sensor_rad_to_degrees v) >
          to_u16 (K.BMG160_SCALE_TO_RANGE d.data.scale) / 16
      · exact ⟨Status.err Errno.enotsup, d, by simp [hmax], by simp [hty, hmax]⟩
      · have hle : to_u16 (K.sensor_rad_to_degrees v) ≤
            to_u16 (K.BMG160_SCALE_TO_RANGE d.data.scale) / 16 := Nat.le_of_not_gt hmax
        simp only [hmax, if_false]
        cases busOk
        · rw [write_byte_failed]
          refine ⟨_, _, rfl, ?_⟩
          simp [hty, hle]
        · rw [write_byte_ok]
          refine ⟨_, _, rfl, ?_⟩
          simp [hty, hle]
    · exact ⟨Status.err Errno.einval, d, by simp [bmg160_slope_config, hty], by simp [hty]⟩
  · by_cases hdur : attr = SENSOR_ATTR_SLOPE_DUR
    · subst hdur
      by_cases hty : v.type = SENSOR_VALUE_TYPE_INT
      · rw [slope_config_dur K busOk d v hty]
        by_cases hv : v.val1 = 4 ∨ v.val1 = 8 ∨ v.val1 = 12 ∨ v.val1 = 16
        · simp only [hv, if_true]
          cases busOk
          · rw [write_byte_failed]
            refine ⟨_, _, rfl, ?_⟩
            simp [hty, hv]
          · rw [write_byte_ok]
            refine ⟨_, _, rfl, ?_⟩
            simp [hty, hv]
        · exact ⟨Status.err Errno.enotsup, d, by simp [hv], by simp [hty, hv]⟩
      · exact ⟨Status.err Errno.einval, d, by simp [bmg160_slope_config, hty], by simp [hty]⟩
    · exact ⟨Status.err Errno.enotsup, d, by simp [bmg160_slope_config, hth, hdur],
        by simp [hth, hdur]⟩

/-- C11 at a concrete input: a threshold of 1 rad/s (57 degrees/s, maximum
125) passes validation, the bus fails; the call returns `-EIO` after the one
write to register 0x1B, and the driver data is as before. -/
theorem slope_config_at_most_one_write_witness :
    ∃ st d1, bmg160_slope_config bmg160_datasheet false (reset_device 1065)
        SENSOR_ATTR_SLOPE_TH ⟨SENSOR_VALUE_TYPE_INT_PLUS_MICRO, 1, 0⟩ = some (st, d1) ∧
      d1.data = (reset_device 1065).data ∧
      st = Status.err Errno.eio ∧
      d1.bus = [BusOp.write 0x1B 57] := by
  obtain ⟨st, d1, h1, h2, _, _, _, _, _, _, _, h10, _⟩ :=
    slope_config_at_most_one_write bmg160_datasheet false (reset_device 1065)
      SENSOR_ATTR_SLOPE_TH ⟨SENSOR_VALUE_TYPE_INT_PLUS_MICRO, 1, 0⟩ (fun _ _ => by decide)
  exact ⟨st, d1, h1, h2, (h10 rfl rfl (by decide)).1, (h10 rfl rfl (by decide)).2⟩

/-! ## Unsupported trigger kinds -/

/-- C12: for every trigger kind other than DELTA and DATA_READY and every
handler argument, whether or not the bus works, `bmg160_trigger_set` returns
`-ENOTSUP` and the device is exactly as before: no bus transaction is
issued and both handler slots keep their values. -/
theorem trigger_set_unsupported_kind (K : bmg160_hdr) (busOk : Bool) (d : Device)
    (trig : sensor_trigger) (handler : sensor_trigger_handler_t)
    (h1 : trig.type ≠ SENSOR_TRIG_DELTA) (h2 : trig.type ≠ SENSOR_TRIG_DATA_READY) :
    bmg160_trigger_set K busOk d trig handler = (Status.err Errno.enotsup, d) ∧
    (bmg160_trigger_set K busOk d trig handler).2.bus = d.bus ∧
    (bmg160_trigger_set K busOk d trig handler).2.data.anymotion_handler =
      d.data.anymotion_handler ∧
    (bmg160_trigger_set K busOk d trig handler).2.data.drdy_handler = d.data.drdy_handler := by
  simp [bmg160_trigger_set, h1, h2]

/-- C12 at a concrete input: a further trigger kind, with a handler. -/
theorem trigger_set_unsupported_kind_witness :
    bmg160_trigger_set bmg160_datasheet true (reset_device 1065)
        ⟨sensor_trigger_type.other 2, SENSOR_CHAN_GYRO_ANY⟩ (some 5) =
      (Status.err Errno.enotsup, reset_device 1065) :=
  (trigger_set_unsupported_kind bmg160_datasheet true (reset_device 1065)
    ⟨sensor_trigger_type.other 2, SENSOR_CHAN_GYRO_ANY⟩ (some 5) (by decide) (by decide)).1

/-! ## The initialization sequencer: `bmg160_trigger_init` -/

/-- C13: the register writes of `bmg160_trigger_init` are issued in the order
INT_EN1, INT_RST_LATCH, INT_MAP0, INT_MAP1. If the write number `k` (from 0)
is the first to fail, the function returns `-EIO`, the bus has seen exactly
the first `k + 1` writes of that sequence and none of the later ones, the
`gpio` field is untouched and no kernel or GPIO call was made: no device
lookup, no dispatch context, no pin callback. -/
theorem trigger_init_first_failure (K : bmg160_hdr) (cfg : bmg160_device_config)
    (mode : trigger_config) (oks : Fin 4 → Bool) (binding : Option Nat) (s : Driver)
    (k : Fin 4) (hprev : ∀ j : Fin 4, j < k → oks j = true) (hfail : oks k = false) :
    (bmg160_trigger_init K cfg mode oks binding s).1 = Status.err Errno.eio ∧
    (bmg160_trigger_init K cfg mode oks binding s).2.dev.bus =
      s.dev.bus ++ (trigger_init_writes K).take (k.val + 1) ∧
    (bmg160_trigger_init K cfg mode oks binding s).2.gpio = s.gpio ∧
    (bmg160_trigger_init K cfg mode oks binding s).2.kernel = s.kernel := by
  fin_cases k
  · have h0 : oks 0 = false := hfail
    simp [bmg160_trigger_init, trigger_init_writes, write_byte_failed, h0]
  · have h0 : oks 0 = true := hprev 0 (by decide)
    have h1 : oks 1 = false := hfail
    simp [bmg160_trigger_init, trigger_init_writes, write_byte_failed, write_byte_ok, h0, h1]
  · have h0 : oks 0 = true := hprev 0 (by decide)
    have h1 : oks 1 = true := hprev 1 (by decide)
    have h2 : oks 2 = false := hfail
    simp [bmg160_trigger_init, trigger_init_writes, write_byte_failed, write_byte_ok, h0, h1,
      h2]
  · have h0 : oks 0 = true := hprev 0 (by decide)
    have h1 : oks 1 = true := hprev 1 (by decide)
    have h2 : oks 2 = true := hprev 2 (by decide)
    have h3 : oks 3 = false := hfail
    simp [bmg160_trigger_init, trigger_init_writes, write_byte_failed, write_byte_ok, h0, h1,
      h2, h3]

/-- C13 at a concrete input: the third write (INT_MAP0) fails; the bus has
seen the writes to 0x16, 0x21 and 0x17 and not the one to 0x18. -/
theorem trigger_init_first_failure_witness :
    (bmg160_trigger_init bmg160_datasheet ⟨3, 12⟩ trigger_config.OWN_FIBER
        (fun j => decide (j ≠ 2)) (some 3) (reset_driver 1065)).1 = Status.err Errno.eio ∧
    (bmg160_trigger_init bmg160_datasheet ⟨3, 12⟩ trigger_config.OWN_FIBER
        (fun j => decide (j ≠ 2)) (some 3) (reset_driver 1065)).2.dev.bus =
      [BusOp.write 0x16 0, BusOp.write 0x21 0, BusOp.write 0x17 0x0A] ∧
    (bmg160_trigger_init bmg160_datasheet ⟨3, 12⟩ trigger_config.OWN_FIBER
        (fun j => decide (j ≠ 2)) (some 3) (reset_driver 1065)).2.gpio = none ∧
    (bmg160_trigger_init bmg160_datasheet ⟨3, 12⟩ trigger_config.OWN_FIBER
        (fun j => decide (j ≠ 2)) (some 3) (reset_driver 1065)).2.kernel = [] :=
  trigger_init_first_failure bmg160_datasheet ⟨3, 12⟩ trigger_config.OWN_FIBER
    (fun j => decide (j ≠ 2)) (some 3) (reset_driver 1065) 2 (by decide) (by decide)

/-- C14 as stated fails: with all four writes successful and no GPIO
controller found, `bmg160_trigger_init` returns `-EINVAL`, the value used for
an invalid argument, not an error value of its own. -/
theorem trigger_init_no_gpio_is_einval :
    (bmg160_trigger_init bmg160_datasheet ⟨3, 12⟩ trigger_config.OWN_FIBER
        (fun _ => true) none (reset_driver 1065)).1 = Status.err Errno.einval ∧
    ¬ ((bmg160_trigger_init bmg160_datasheet ⟨3, 12⟩ trigger_config.OWN_FIBER
          (fun _ => true) none (reset_driver 1065)).1 ≠ Status.err Errno.einval ∧
       (bmg160_trigger_init bmg160_datasheet ⟨3, 12⟩ trigger_config.OWN_FIBER
          (fun _ => true) none (reset_driver 1065)).1 ≠ Status.err Errno.eio ∧
       (bmg160_trigger_init bmg160_datasheet ⟨3, 12⟩ trigger_config.OWN_FIBER
          (fun _ => true) none (reset_driver 1065)).1 ≠ Status.err Errno.enotsup) := by
  decide

/-- C14 as amended: when all four register writes succeed and
`device_get_binding` returns the null pointer, `bmg160_trigger_init` fails
with `-EINVAL`, which differs from `-EIO` and `-ENOTSUP`; the four writes have
been issued, the `gpio` field is null, and the device lookup is the only
kernel call made: no dispatch context is started and no pin callback is
registered, in every build configuration. -/
theorem trigger_init_no_gpio (K : bmg160_hdr) (cfg : bmg160_device_config)
    (mode : trigger_config) (s : Driver) :
    (bmg160_trigger_init K cfg mode (fun _ => true) none s).1 = Status.err Errno.einval ∧
    (bmg160_trigger_init K cfg mode (fun _ => true) none s).1 ≠ Status.err Errno.eio ∧
    (bmg160_trigger_init K cfg mode (fun _ => true) none s).1 ≠ Status.err Errno.enotsup ∧
    (bmg160_trigger_init K cfg mode (fun _ => true) none s).2.dev.bus =
      s.dev.bus ++ trigger_init_writes K ∧
    (bmg160_trigger_init K cfg mode (fun _ => true) none s).2.gpio = none ∧
    (bmg160_trigger_init K cfg mode (fun _ => true) none s).2.kernel =
      s.kernel ++ [KernelOp.device_get_binding cfg.gpio_port] := by
  simp [bmg160_trigger_init, trigger_init_writes, write_byte_ok]

/-! ## The value written to the threshold register -/

/-- C15, where the code departs from the claim: for a threshold within the
maximum and a working bus the one write goes to the threshold register, but
the byte written is the degrees-per-second value `any_th_dps` under
`BMG160_THRES_MASK`; the scaled `any_th_reg_val = any_th_dps * 2000 /
range_dps` is computed and never used, so whenever the two differ the
register does not hold the value in register units. -/
theorem slope_th_writes_unscaled_value (K : bmg160_hdr) (d : Device) (v : sensor_value)
    (htype : v.type = SENSOR_VALUE_TYPE_INT_PLUS_MICRO)
    (hrange : to_u16 (K.BMG160_SCALE_TO_RANGE d.data.scale) ≠ 0)
    (hmax : to_u16 (K.sensor_rad_to_degrees v) ≤
      to_u16 (K.BMG160_SCALE_TO_RANGE d.data.scale) / 16)
    (hdiff : (((to_u16 (K.sensor_rad_to_degrees v) * 2000 /
        to_u16 (K.BMG160_SCALE_TO_RANGE d.data.scale)) % 256) &&& K.BMG160_THRES_MASK) % 256 ≠
      (to_u16 (K.sensor_rad_to_degrees v) &&& K.BMG160_THRES_MASK) % 256) :
    ∃ d1, bmg160_slope_config K true d SENSOR_ATTR_SLOPE_TH v = some (Status.ok, d1) ∧
      d1.bus = d.bus ++ [BusOp.write K.BMG160_REG_THRES
        (to_u16 (K.sensor_rad_to_degrees v) &&& K.BMG160_THRES_MASK)] ∧
      d1.regs K.BMG160_REG_THRES =
        (to_u16 (K.sensor_rad_to_degrees v) &&& K.BMG160_THRES_MASK) % 256 ∧
      d1.regs K.BMG160_REG_THRES ≠
        (((to_u16 (K.sensor_rad_to_degrees v) * 2000 /
          to_u16 (K.BMG160_SCALE_TO_RANGE d.data.scale)) % 256) &&&
            K.BMG160_THRES_MASK) % 256 := by
  have hnot : ¬ (to_u16 (K.sensor_rad_to_degrees v) >
      to_u16 (K.BMG160_SCALE_TO_RANGE d.data.scale) / 16) := Nat.not_lt.mpr hmax
  rw [slope_config_th K true d v htype hrange, write_byte_ok]
  simp only [hnot, if_false]
  refine ⟨_, rfl, rfl, ?_, ?_⟩
  · simp
  · simpa using fun h => hdiff h.symm

/-- The failing input of C15 on the datasheet layout: 0.5 rad/s is 28
degrees/s; with the scale 266 the range is 499 degrees/s and the maximum 31,
so the value is accepted; in register units it is 28 * 2000 / 499 = 112, and
the register 0x1B receives 28. -/
theorem slope_th_writes_unscaled_value_witness :
    to_u16 (bmg160_datasheet.sensor_rad_to_degrees
      ⟨SENSOR_VALUE_TYPE_INT_PLUS_MICRO, 0, 500000⟩) = 28 ∧
    to_u16 (bmg160_datasheet.BMG160_SCALE_TO_RANGE (reset_device 266).data.scale) = 499 ∧
    ∃ d1, bmg160_slope_config bmg160_datasheet true (reset_device 266) SENSOR_ATTR_SLOPE_TH
        ⟨SENSOR_VALUE_TYPE_INT_PLUS_MICRO, 0, 500000⟩ = some (Status.ok, d1) ∧
      d1.bus = [BusOp.write 0x1B 28] ∧
      d1.regs 0x1B = 28 ∧
      d1.regs 0x1B ≠ 112 :=
  ⟨by decide, by decide,
   slope_th_writes_unscaled_value bmg160_datasheet (reset_device 266)
     ⟨SENSOR_VALUE_TYPE_INT_PLUS_MICRO, 0, 500000⟩ rfl (by decide) (by decide) (by decide)⟩

/-! ## Events without the motion bit -/

/-- C16: after a successful status read whose first byte has the motion bit
clear, whatever the other bits and the other three bytes are, a dispatch
cycle invokes the data-ready handler exactly once with
`{DATA_READY, GYRO_ANY}` if that slot is populated and nothing if it is
empty, so never the motion handler; and in every dispatch cycle, whatever
the outcome of the status read, at most one invocation is made. -/
theorem handle_int_defaults_to_data_ready (K : bmg160_hdr) (d : Device)
    (status : Fin 4 → Nat) (hbit : status 0 % 256 &&& K.BMG160_ANY_INT = 0) :
    (bmg160_handle_int K (some status) d).calls =
      d.calls ++
        (match d.data.drdy_handler with
         | some h => [(h, ⟨SENSOR_TRIG_DATA_READY, SENSOR_CHAN_GYRO_ANY⟩)]
         | none => []) ∧
    (bmg160_handle_int K (some status) d).data = d.data ∧
    (∀ rd : Option (Fin 4 → Nat), ∃ l : List (Nat × sensor_trigger),
      (bmg160_handle_int K rd d).calls = d.calls ++ l ∧ l.length ≤ 1) := by
  refine ⟨?_, ?_, ?_⟩
  · cases hd : d.data.drdy_handler <;>
      simp [bmg160_handle_int, bmg160_read, bmg160_handle_dataready_int, hbit, hd]
  · cases hd : d.data.drdy_handler <;>
      simp [bmg160_handle_int, bmg160_read, bmg160_handle_dataready_int, hbit, hd]
  · intro rd
    cases rd with
    | none => exact ⟨[], by simp [bmg160_handle_int, bmg160_read], by simp⟩
    | some st =>
      by_cases hb : st 0 % 256 &&& K.BMG160_ANY_INT = 0
      · cases hd : d.data.drdy_handler with
        | none =>
          exact ⟨[], by simp [bmg160_handle_int, bmg160_read, bmg160_handle_dataready_int,
            hb, hd], by simp⟩
        | some h =>
          exact ⟨[(h, ⟨SENSOR_TRIG_DATA_READY, SENSOR_CHAN_GYRO_ANY⟩)],
            by simp [bmg160_handle_int, bmg160_read, bmg160_handle_dataready_int, hb, hd],
            by simp⟩
      · cases hm : d.data.anymotion_handler with
        | none =>
          exact ⟨[], by simp [bmg160_handle_int, bmg160_read, bmg160_handle_anymotion_int,
            hb, hm], by simp⟩
        | some h =>
          exact ⟨[(h, ⟨SENSOR_TRIG_DELTA, SENSOR_CHAN_GYRO_ANY⟩)],
            by simp [bmg160_handle_int, bmg160_read, bmg160_handle_anymotion_int, hb, hm],
            by simp⟩

/-- C16 at a concrete input: an all-zero status, where not even the
data-ready bit is set, with both handlers registered; the data-ready
handler 9 is invoked once and the motion handler 7 is not. -/
theorem handle_int_defaults_to_data_ready_witness :
    (bmg160_handle_int bmg160_datasheet (some (fun _ => 0))
        { reset_device 1065 with
          data := { scale := 1065, anymotion_handler := some 7, drdy_handler := some 9 } }).calls =
      [(9, ⟨SENSOR_TRIG_DATA_READY, SENSOR_CHAN_GYRO_ANY⟩)] :=
  (handle_int_defaults_to_data_ready bmg160_datasheet
    { reset_device 1065 with
      data := { scale := 1065, anymotion_handler := some 7, drdy_handler := some 9 } }
    (fun _ => 0) (by decide)).1

end Bmg160

namespace Hts221

open Bmg160 (Status Errno sensor_value sensor_value_type)

/-! ## Arithmetic on `int` -/

theorem int32_ok (x : Int) (h1 : -2147483648 ≤ x) (h2 : x ≤ 2147483647) :
    int32 x = Except.ok x := by
  simp [int32, h1, h2]

theorem int32_undefined (x : Int) (h : x < -2147483648 ∨ 2147483647 < x) :
    int32 x = Except.error Fault.undefined := by
  have hn : ¬ (-2147483648 ≤ x ∧ x ≤ 2147483647) := by omega
  simp [int32, hn]

theorem abs_mul_le (a b A B : Int) (ha : |a| ≤ A) (hb : |b| ≤ B) : |a * b| ≤ A * B := by
  rw [abs_mul]
  exact mul_le_mul ha hb (abs_nonneg _) (le_trans (abs_nonneg _) ha)

theorem abs_tdiv_le (p c : Int) : |Int.tdiv p c| ≤ |p| := by
  rw [Int.abs_eq_natAbs, Int.abs_eq_natAbs, Int.natAbs_tdiv]
  exact Int.ofNat_le.mpr (Nat.div_le_self _ _)

theorem c_div_ok (a b : Int) (hb : b ≠ 0) (h1 : -2147483648 < a) (h2 : a ≤ 2147483647) :
    c_div a b = Except.ok (Int.tdiv a b) := by
  have h := abs_tdiv_le a b
  have ha : |a| ≤ 2147483647 := abs_le.mpr ⟨by omega, h2⟩
  have hq := abs_le.mp (le_trans h ha)
  simp [c_div, hb, int32_ok _ (by omega : -2147483648 ≤ Int.tdiv a b) hq.2]

/-- The truncating quotient and remainder by 8, in terms omega can use. -/
theorem tdiv_tmod_8 (c : Int) :
    Int.tmod c 8 = c - 8 * Int.tdiv c 8 ∧
    (0 ≤ c → Int.tdiv c 8 = c / 8) ∧ (c < 0 → Int.tdiv c 8 = -((-c) / 8)) := by
  refine ⟨Int.tmod_def c 8, fun h => Int.tdiv_eq_ediv h (by norm_num), fun h => ?_⟩
  have h2 := Int.neg_tdiv (-c) 8
  rw [neg_neg] at h2
  rw [h2, Int.tdiv_eq_ediv (by omega) (by norm_num)]

theorem byte_or_shl8 (a c : Nat) (ha : a < 256) : a ||| (c <<< 8) = a + 256 * c := by
  have h := Nat.mul_add_lt_is_or (i := 8) (b := a) (by simpa using ha) c
  rw [Nat.shiftLeft_eq, Nat.or_comm, Nat.mul_comm c, ← h]
  norm_num
  omega

theorem and_3 (b : Nat) : b &&& 3 = b % 4 := by
  have h := Nat.and_pow_two_sub_one_eq_mod b 2
  simpa using h

set_option maxRecDepth 100000 in
theorem and_12_shl6 : ∀ b : Nat, b < 256 → (b &&& 12) <<< 6 = 256 * (b / 4 % 4) := by
  decide

/-! ## The two interpolations -/

/-- With fields in range and distinct temperature calibration samples the
temperature `conv_val` is defined and is the interpolation on the integers. -/
theorem temp_conv_val_defined (d : hts221_data) (hr : in_range d)
    (hspan : d.t1_out ≠ d.t0_out) :
    temp_conv_val d =
      Except.ok (Int.tdiv ((d.t1_degc_x8 - d.t0_degc_x8) * (d.t_sample - d.t0_out))
        (d.t1_out - d.t0_out) + d.t0_degc_x8) := by
  obtain ⟨_, ⟨hs1, hs2⟩, _, _, ⟨ha1, ha2⟩, ⟨hb1, hb2⟩, _, _, ⟨hc1, hc2⟩, ⟨hd1, hd2⟩⟩ := hr
  have hdy : |d.t1_degc_x8 - d.t0_degc_x8| ≤ 1023 := abs_le.mpr ⟨by omega, by omega⟩
  have hdx : |d.t_sample - d.t0_out| ≤ 65535 := abs_le.mpr ⟨by omega, by omega⟩
  have hp := abs_le.mp (abs_mul_le _ _ _ _ hdy hdx)
  have hq := abs_le.mp (le_trans (abs_tdiv_le ((d.t1_degc_x8 - d.t0_degc_x8) *
    (d.t_sample - d.t0_out)) (d.t1_out - d.t0_out)) (abs_mul_le _ _ _ _ hdy hdx))
  have hne : d.t1_out - d.t0_out ≠ 0 := by omega
  simp only [temp_conv_val, bind, Except.bind]
  rw [int32_ok _ (by omega) (by omega)]
  simp only []
  rw [int32_ok _ (by omega) (by omega)]
  simp only []
  rw [int32_ok _ (by omega) (by omega)]
  simp only []
  rw [int32_ok _ (by omega) (by omega)]
  simp only []
  rw [c_div_ok _ _ hne (by omega) (by omega)]
  simp only []
  rw [int32_ok _ (by omega) (by omega)]

/-- With fields in range and distinct humidity calibration samples the
humidity `conv_val` is defined and is the interpolation on the integers. -/
theorem humidity_conv_val_defined (d : hts221_data) (hr : in_range d)
    (hspan : d.h1_t0_out ≠ d.h0_t0_out) :
    humidity_conv_val d =
      Except.ok (Int.tdiv ((d.h1_rh_x2 - d.h0_rh_x2) * (d.rh_sample - d.h0_t0_out))
        (d.h1_t0_out - d.h0_t0_out) + d.h0_rh_x2) := by
  obtain ⟨⟨hs1, hs2⟩, _, ⟨ha1, ha2⟩, ⟨hb1, hb2⟩, _, _, ⟨hc1, hc2⟩, ⟨hd1, hd2⟩, _, _⟩ := hr
  have hdy : |d.h1_rh_x2 - d.h0_rh_x2| ≤ 255 := abs_le.mpr ⟨by omega, by omega⟩
  have hdx : |d.rh_sample - d.h0_t0_out| ≤ 65535 := abs_le.mpr ⟨by omega, by omega⟩
  have hp := abs_le.mp (abs_mul_le _ _ _ _ hdy hdx)
  have hq := abs_le.mp (le_trans (abs_tdiv_le ((d.h1_rh_x2 - d.h0_rh_x2) *
    (d.rh_sample - d.h0_t0_out)) (d.h1_t0_out - d.h0_t0_out)) (abs_mul_le _ _ _ _ hdy hdx))
  have hne : d.h1_t0_out - d.h0_t0_out ≠ 0 := by omega
  simp only [humidity_conv_val, bind, Except.bind]
  rw [int32_ok _ (by omega) (by omega)]
  simp only []
  rw [int32_ok _ (by omega) (by omega)]
  simp only []
  rw [int32_ok _ (by omega) (by omega)]
  simp only []
  rw [int32_ok _ (by omega) (by omega)]
  simp only []
  rw [c_div_ok _ _ hne (by omega) (by omega)]
  simp only []
  rw [int32_ok _ (by omega) (by omega)]

/-- What `hts221_channel_get` returns for the temperature channel once
`conv_val` is known; the assertion holds for that channel. -/
theorem channel_get_temp (H : hts221_hdr) (assertOn : Bool) (d : hts221_data) (c : Int)
    (hc : temp_conv_val d = Except.ok c) :
    hts221_channel_get H assertOn d H.SENSOR_CHAN_TEMP = Except.ok (Status.ok, temp_value c) := by
  simp [hts221_channel_get, channel_assertion, hc, bind, Except.bind, pure, Except.pure]

/-- What `hts221_channel_get` returns for a channel other than temperature
once `conv_val` is known, when the humidity enumerator is not zero. -/
theorem channel_get_humidity (H : hts221_hdr) (assertOn : Bool) (d : hts221_data) (chan : Nat)
    (c : Int) (hnz : H.SENSOR_CHAN_HUMIDITY ≠ 0) (hchan : chan ≠ H.SENSOR_CHAN_TEMP)
    (hc : humidity_conv_val d = Except.ok c) :
    hts221_channel_get H assertOn d chan =
      (match int32 (c * 500) with
       | Except.ok val1 =>
         Except.ok (Status.ok,
           { type := sensor_value_type.SENSOR_VALUE_TYPE_INT_PLUS_MICRO, val1 := val1, val2 := 0 })
       | Except.error e => Except.error e) := by
  have hassert : channel_assertion H chan = true := by simp [channel_assertion, hnz]
  simp only [hts221_channel_get, hassert, hc, hchan, humidity_value, bind, Except.bind, pure,
    Except.pure]
  cases int32 (c * 500) <;> simp

/-- C17: with the fields of the driver data in range, `hts221_channel_get`
interpolates exactly through the calibration points. When `t1_out` differs
from `t0_out`, a temperature sample equal to `t0_out` gives
`conv_val = t0_degc_x8` and one equal to `t1_out` gives `conv_val = t1_degc_x8`,
and the value stored is the split of that `conv_val`. When `h1_t0_out`
differs from `h0_t0_out`, a humidity sample equal to `h0_t0_out` gives
`conv_val = h0_rh_x2`, stored as `val1 = 500 * h0_rh_x2` and `val2 = 0`, and
one equal to `h1_t0_out` gives `conv_val = h1_rh_x2`, stored as
`val1 = 500 * h1_rh_x2` and `val2 = 0`. The function returns 0 each time. -/
theorem channel_get_at_calibration_points (H : hts221_hdr) (assertOn : Bool)
    (d : hts221_data) (hr : in_range d)
    (hnz : H.SENSOR_CHAN_HUMIDITY ≠ 0)
    (hne : H.SENSOR_CHAN_HUMIDITY ≠ H.SENSOR_CHAN_TEMP) :
    (d.t1_out ≠ d.t0_out →
      temp_conv_val { d with t_sample := d.t0_out } = Except.ok d.t0_degc_x8 ∧
      hts221_channel_get H assertOn { d with t_sample := d.t0_out } H.SENSOR_CHAN_TEMP =
        Except.ok (Status.ok, temp_value d.t0_degc_x8) ∧
      temp_conv_val { d with t_sample := d.t1_out } = Except.ok d.t1_degc_x8 ∧
      hts221_channel_get H assertOn { d with t_sample := d.t1_out } H.SENSOR_CHAN_TEMP =
        Except.ok (Status.ok, temp_value d.t1_degc_x8)) ∧
    (d.h1_t0_out ≠ d.h0_t0_out →
      humidity_conv_val { d with rh_sample := d.h0_t0_out } = Except.ok d.h0_rh_x2 ∧
      hts221_channel_get H assertOn { d with rh_sample := d.h0_t0_out }
          H.SENSOR_CHAN_HUMIDITY =
        Except.ok (Status.ok,
          { type := sensor_value_type.SENSOR_VALUE_TYPE_INT_PLUS_MICRO,
            val1 := 500 * d.h0_rh_x2, val2 := 0 }) ∧
      humidity_conv_val { d with rh_sample := d.h1_t0_out } = Except.ok d.h1_rh_x2 ∧
      hts221_channel_get H assertOn { d with rh_sample := d.h1_t0_out }
          H.SENSOR_CHAN_HUMIDITY =
        Except.ok (Status.ok,
          { type := sensor_value_type.SENSOR_VALUE_TYPE_INT_PLUS_MICRO,
            val1 := 500 * d.h1_rh_x2, val2 := 0 })) := by
  have hr' := hr
  unfold in_range at hr'
  constructor
  · intro hspan
    have hsub : d.t1_out - d.t0_out ≠ 0 := by omega
    have r0 : in_range { d with t_sample := d.t0_out } := by
      unfold in_range
      dsimp only
      omega
    have r1 : in_range { d with t_sample := d.t1_out } := by
      unfold in_range
      dsimp only
      omega
    have c0 : temp_conv_val { d with t_sample := d.t0_out } = Except.ok d.t0_degc_x8 := by
      rw [temp_conv_val_defined _ r0 hspan]
      simp
    have c1 : temp_conv_val { d with t_sample := d.t1_out } = Except.ok d.t1_degc_x8 := by
      rw [temp_conv_val_defined _ r1 hspan]
      dsimp only
      rw [Int.mul_tdiv_cancel _ hsub]
      simp
    exact ⟨c0, channel_get_temp H assertOn _ _ c0, c1, channel_get_temp H assertOn _ _ c1⟩
  · intro hspan
    have hsub : d.h1_t0_out - d.h0_t0_out ≠ 0 := by omega
    have r0 : in_range { d with rh_sample := d.h0_t0_out } := by
      unfold in_range
      dsimp only
      omega
    have r1 : in_range { d with rh_sample := d.h1_t0_out } := by
      unfold in_range
      dsimp only
      omega
    have c0 : humidity_conv_val { d with rh_sample := d.h0_t0_out } =
        Except.ok d.h0_rh_x2 := by
      rw [humidity_conv_val_defined _ r0 hspan]
      simp
    have c1 : humidity_conv_val { d with rh_sample := d.h1_t0_out } =
        Except.ok d.h1_rh_x2 := by
      rw [humidity_conv_val_defined _ r1 hspan]
      dsimp only
      rw [Int.mul_tdiv_cancel _ hsub]
      simp
    refine ⟨c0, ?_, c1, ?_⟩
    · rw [channel_get_humidity H assertOn _ _ _ hnz hne c0,
        int32_ok _ (by omega) (by omega), Int.mul_comm]
    · rw [channel_get_humidity H assertOn _ _ _ hnz hne c1,
        int32_ok _ (by omega) (by omega), Int.mul_comm]

/-- C17 at a concrete input: the calibration 20.0 and 30.0 degrees at -100 and
400, 30 and 70 percent at 2000 and -6000; the samples at the calibration
points give 20.0 and 30.0 degrees, 30000 and 70000 thousandths of a percent. -/
theorem channel_get_at_calibration_points_witness :
    hts221_channel_get hts221_little_endian true { sample_data with t_sample := -100 } 13 =
      Except.ok (Status.ok, ⟨sensor_value_type.SENSOR_VALUE_TYPE_INT_PLUS_MICRO, 20, 0⟩) ∧
    hts221_channel_get hts221_little_endian true { sample_data with t_sample := 400 } 13 =
      Except.ok (Status.ok, ⟨sensor_value_type.SENSOR_VALUE_TYPE_INT_PLUS_MICRO, 30, 0⟩) ∧
    hts221_channel_get hts221_little_endian true { sample_data with rh_sample := 2000 } 16 =
      Except.ok (Status.ok, ⟨sensor_value_type.SENSOR_VALUE_TYPE_INT_PLUS_MICRO, 30000, 0⟩) ∧
    hts221_channel_get hts221_little_endian true { sample_data with rh_sample := -6000 } 16 =
      Except.ok (Status.ok, ⟨sensor_value_type.SENSOR_VALUE_TYPE_INT_PLUS_MICRO, 70000, 0⟩) :=
  have h := channel_get_at_calibration_points hts221_little_endian true sample_data
    (by decide) (by decide) (by decide)
  ⟨(h.1 (by decide)).2.1, (h.1 (by decide)).2.2.2, (h.2 (by decide)).2.1,
   (h.2 (by decide)).2.2.2⟩

/-- C18: for every `conv_val`, positive, zero or negative, the value stored
for the temperature channel splits it exactly:
`val1 * 1000000 + val2 = conv_val * 125000`, the magnitude of `val2` is below
1000000, and `val1` and `val2` never have opposite signs; and that value is
what `hts221_channel_get` stores whenever the temperature `conv_val` is
defined. -/
theorem temp_value_exact (conv_val : Int) :
    (temp_value conv_val).val1 * 1000000 + (temp_value conv_val).val2 = conv_val * 125000 ∧
    |(temp_value conv_val).val2| < 1000000 ∧
    ¬ (0 < (temp_value conv_val).val1 ∧ (temp_value conv_val).val2 < 0) ∧
    ¬ ((temp_value conv_val).val1 < 0 ∧ 0 < (temp_value conv_val).val2) ∧
    (temp_value conv_val).type = sensor_value_type.SENSOR_VALUE_TYPE_INT_PLUS_MICRO ∧
    (∀ (H : hts221_hdr) (assertOn : Bool) (d : hts221_data),
      temp_conv_val d = Except.ok conv_val →
      hts221_channel_get H assertOn d H.SENSOR_CHAN_TEMP =
        Except.ok (Status.ok, temp_value conv_val)) := by
  obtain ⟨hmod, hpos, hneg⟩ := tdiv_tmod_8 conv_val
  have hk : (1000000 / 8 : Int) = 125000 := by norm_num
  simp only [temp_value, hk, abs_lt]
  refine ⟨?_, ?_, ?_, ?_, trivial, fun H assertOn d hc => channel_get_temp H assertOn d _ hc⟩
  all_goals
    rcases le_or_lt 0 conv_val with h | h
    · rw [hmod, hpos h]
      omega
    · rw [hmod, hneg h]
      omega

/-- C18 at a concrete input: a sample below the calibration range gives
`conv_val = -19`, stored as -2 and -375000, which is -2.375 degrees. -/
theorem temp_value_exact_witness :
    temp_conv_val { sample_data with t_sample := -1220 } = Except.ok (-19) ∧
    temp_value (-19) = ⟨sensor_value_type.SENSOR_VALUE_TYPE_INT_PLUS_MICRO, -2, -375000⟩ ∧
    hts221_channel_get hts221_little_endian true { sample_data with t_sample := -1220 } 13 =
      Except.ok (Status.ok, temp_value (-19)) :=
  ⟨rfl, by decide,
   (temp_value_exact (-19)).2.2.2.2.2 hts221_little_endian true
     { sample_data with t_sample := -1220 } (by rfl)⟩

/-- C19: when `SENSOR_CHAN_HUMIDITY` is a non-zero enumerator the asserted
condition `(chan == SENSOR_CHAN_TEMP || SENSOR_CHAN_HUMIDITY)` holds for
every channel value, so the assertion rejects nothing; and for every channel
other than `SENSOR_CHAN_TEMP`, with assertions compiled in or not, the
function computes the humidity conversion: with fields in range and distinct
humidity calibration samples `conv_val` is the humidity interpolation, and
the function returns 0 and stores `conv_val * 500` and 0 whenever that
product fits an `int` (it has no defined result otherwise). -/
theorem channel_assertion_rejects_nothing (H : hts221_hdr) (assertOn : Bool)
    (d : hts221_data) (chan : Nat)
    (hnz : H.SENSOR_CHAN_HUMIDITY ≠ 0) (hchan : chan ≠ H.SENSOR_CHAN_TEMP)
    (hr : in_range d) (hspan : d.h1_t0_out ≠ d.h0_t0_out) :
    (∀ c : Nat, channel_assertion H c = true) ∧
    hts221_channel_get H assertOn d chan ≠ Except.error Fault.assertion ∧
    ∃ conv_val : Int,
      conv_val = Int.tdiv ((d.h1_rh_x2 - d.h0_rh_x2) * (d.rh_sample - d.h0_t0_out))
        (d.h1_t0_out - d.h0_t0_out) + d.h0_rh_x2 ∧
      humidity_conv_val d = Except.ok conv_val ∧
      (-4294967 ≤ conv_val → conv_val ≤ 4294967 →
        hts221_channel_get H assertOn d chan =
          Except.ok (Status.ok,
            { type := sensor_value_type.SENSOR_VALUE_TYPE_INT_PLUS_MICRO,
              val1 := conv_val * 500, val2 := 0 })) ∧
      (conv_val < -4294967 ∨ 4294967 < conv_val →
        hts221_channel_get H assertOn d chan = Except.error Fault.undefined) := by
  have hc := humidity_conv_val_defined d hr hspan
  have hget := channel_get_humidity H assertOn d chan _ hnz hchan hc
  refine ⟨fun c => by simp [channel_assertion, hnz], ?_, _, rfl, hc, ?_, ?_⟩
  · rw [hget]
    by_cases hfit : -2147483648 ≤ (Int.tdiv ((d.h1_rh_x2 - d.h0_rh_x2) *
        (d.rh_sample - d.h0_t0_out)) (d.h1_t0_out - d.h0_t0_out) + d.h0_rh_x2) * 500 ∧
      (Int.tdiv ((d.h1_rh_x2 - d.h0_rh_x2) * (d.rh_sample - d.h0_t0_out))
        (d.h1_t0_out - d.h0_t0_out) + d.h0_rh_x2) * 500 ≤ 2147483647
    · rw [int32_ok _ hfit.1 hfit.2]
      simp
    · rw [int32_undefined _ (by omega)]
      simp
  · intro h1 h2
    rw [hget, int32_ok _ (by omega) (by omega)]
  · intro h
    rw [hget, int32_undefined _ (by omega)]

/-- C19 at a concrete input: channel 0, neither temperature (13) nor humidity
(16), passes the assertion and yields the humidity value 40000. -/
theorem channel_assertion_rejects_nothing_witness :
    channel_assertion hts221_little_endian 0 = true ∧
    hts221_channel_get hts221_little_endian true sample_data 0 =
      Except.ok (Status.ok, ⟨sensor_value_type.SENSOR_VALUE_TYPE_INT_PLUS_MICRO, 40000, 0⟩) := by
  obtain ⟨h1, _, c, hc, _, h3, _⟩ :=
    channel_assertion_rejects_nothing hts221_little_endian true sample_data 0
      (by decide) (by decide) (by decide) (by decide)
  have hval : c = 80 := by rw [hc]; decide
  subst hval
  exact ⟨h1 0, h3 (by decide) (by decide)⟩

/-! ## The calibration block -/

/-- The two temperature calibration values that
`hts221_read_conversion_data` stores, on a little-endian CPU. -/
theorem conversion_data_degc (H : hts221_hdr) (bytes : Fin 16 → Nat) (d : hts221_data)
    (hle : ∀ x : Nat, x < 65536 → H.sys_le16_to_cpu x = x)
    (hbytes : ∀ i, bytes i < 256) :
    (hts221_read_conversion_data H (some bytes) d).2.t0_degc_x8 =
      ((bytes 2 + 256 * (bytes 5 % 4) : Nat) : Int) ∧
    (hts221_read_conversion_data H (some bytes) d).2.t1_degc_x8 =
      ((bytes 3 + 256 * (bytes 5 / 4 % 4) : Nat) : Int) := by
  have h2 := hbytes 2
  have h3 := hbytes 3
  have h5 := hbytes 5
  have e0 : bytes 2 % 256 ||| ((bytes 5 % 256 &&& 0x3) <<< 8) =
      bytes 2 + 256 * (bytes 5 % 4) := by
    rw [Nat.mod_eq_of_lt h2, Nat.mod_eq_of_lt h5, and_3, byte_or_shl8 _ _ h2]
  have e1 : bytes 3 % 256 ||| ((bytes 5 % 256 &&& 0xC) <<< 6) =
      bytes 3 + 256 * (bytes 5 / 4 % 4) := by
    rw [Nat.mod_eq_of_lt h3, Nat.mod_eq_of_lt h5, and_12_shl6 _ h5]
    have h := byte_or_shl8 (bytes 3) (bytes 5 / 4 % 4) h3
    rw [Nat.shiftLeft_eq] at h
    rw [← h]
    congr 1
    omega
  have b0 : bytes 2 + 256 * (bytes 5 % 4) < 65536 := by omega
  have b1 : bytes 3 + 256 * (bytes 5 / 4 % 4) < 65536 := by omega
  constructor
  · simp only [hts221_read_conversion_data]
    rw [e0, hle _ b0, Nat.mod_eq_of_lt b0]
  · simp only [hts221_read_conversion_data]
    rw [e1, hle _ b1, Nat.mod_eq_of_lt b1]

theorem to_i16_range (x : Int) : -32768 ≤ to_i16 x ∧ to_i16 x ≤ 32767 := by
  unfold to_i16
  omega

/-- After a successful `hts221_read_conversion_data` on a little-endian CPU
the calibration fields are in range; the samples are not touched. -/
theorem read_conversion_data_in_range (H : hts221_hdr) (bytes : Fin 16 → Nat)
    (d : hts221_data)
    (hle : ∀ x : Nat, x < 65536 → H.sys_le16_to_cpu x = x)
    (hbytes : ∀ i, bytes i < 256)
    (hrh : -32768 ≤ d.rh_sample ∧ d.rh_sample ≤ 32767)
    (ht : -32768 ≤ d.t_sample ∧ d.t_sample ≤ 32767) :
    in_range (hts221_read_conversion_data H (some bytes) d).2 := by
  obtain ⟨v0, v1⟩ := conversion_data_degc H bytes d hle hbytes
  have h5 := hbytes 5
  have h2 := hbytes 2
  have h3 := hbytes 3
  refine ⟨hrh, ht, ?_, ?_, ?_, ?_, to_i16_range _, to_i16_range _, to_i16_range _,
    to_i16_range _⟩
  · have h0 := hbytes 0
    simp only [hts221_read_conversion_data]
    omega
  · have h1 := hbytes 1
    simp only [hts221_read_conversion_data]
    omega
  · rw [v0]
    omega
  · rw [v1]
    omega

/-- C20: on a little-endian CPU, for every content of the 16-byte calibration
block, `hts221_read_conversion_data` returns 0 and stores
`t0_degc_x8 = buf[2] + 256 * (buf[5] mod 4)` and
`t1_degc_x8 = buf[3] + 256 * ((buf[5] div 4) mod 4)`: the first takes bits 0
and 1 of `buf[5]`, the second bits 2 and 3, and both lie in 0..1023; when
the bus read fails it returns `-EIO` and the driver data is unchanged. -/
theorem read_conversion_data_temperature (H : hts221_hdr) (bytes : Fin 16 → Nat)
    (d : hts221_data)
    (hle : ∀ x : Nat, x < 65536 → H.sys_le16_to_cpu x = x)
    (hbytes : ∀ i, bytes i < 256) :
    (hts221_read_conversion_data H (some bytes) d).1 = Status.ok ∧
    (hts221_read_conversion_data H (some bytes) d).2.t0_degc_x8 =
      ((bytes 2 + 256 * (bytes 5 % 4) : Nat) : Int) ∧
    (hts221_read_conversion_data H (some bytes) d).2.t1_degc_x8 =
      ((bytes 3 + 256 * (bytes 5 / 4 % 4) : Nat) : Int) ∧
    (0 ≤ (hts221_read_conversion_data H (some bytes) d).2.t0_degc_x8 ∧
      (hts221_read_conversion_data H (some bytes) d).2.t0_degc_x8 ≤ 1023) ∧
    (0 ≤ (hts221_read_conversion_data H (some bytes) d).2.t1_degc_x8 ∧
      (hts221_read_conversion_data H (some bytes) d).2.t1_degc_x8 ≤ 1023) ∧
    hts221_read_conversion_data H none d = (Status.err Errno.eio, d) := by
  obtain ⟨v0, v1⟩ := conversion_data_degc H bytes d hle hbytes
  have h2 := hbytes 2
  have h3 := hbytes 3
  have h5 := hbytes 5
  refine ⟨rfl, v0, v1, ?_, ?_, rfl⟩
  · rw [v0]
    omega
  · rw [v1]
    omega

/-- C20 at a concrete input: `buf[2] = 0xA0`, `buf[3] = 0xF0`, `buf[5] = 0xF4`
(bits 0..1 are 00, bits 2..3 are 01); the two values are 160 and 496. -/
theorem read_conversion_data_temperature_witness :
    (hts221_read_conversion_data hts221_little_endian
        (some (fun i => if i = 2 then 0xA0 else if i = 3 then 0xF0 else
          if i = 5 then 0xF4 else 0)) sample_data).2.t0_degc_x8 = 160 ∧
    (hts221_read_conversion_data hts221_little_endian
        (some (fun i => if i = 2 then 0xA0 else if i = 3 then 0xF0 else
          if i = 5 then 0xF4 else 0)) sample_data).2.t1_degc_x8 = 496 ∧
    hts221_read_conversion_data hts221_little_endian none sample_data =
      (Status.err Errno.eio, sample_data) :=
  have h := read_conversion_data_temperature hts221_little_endian
    (fun i => if i = 2 then 0xA0 else if i = 3 then 0xF0 else if i = 5 then 0xF4 else 0)
    sample_data (fun _ _ => rfl) (by decide)
  ⟨h.2.1, h.2.2.1, h.2.2.2.2.2⟩

end Hts221
